import Mathlib

/-
  Verification of the DMG CPU core in src/src/dmg/dmg_cpu.rs.

  Shallow embedding conventions:
  * Rust u8 / u16 values are Nat.  Storage cells (register fields, the bus
    memory map, the private stack array) may hold arbitrary Nat, and every
    read of a u8/u16-typed cell masks with % 256 / % 65536, which is the
    standard embedding of fixed-width storage.
  * Arithmetic that the Rust release build wraps (plain + and - on u8/u16,
    wrapping_add, wrapping_sub) is modelled with explicit % 2^w.
  * Fallible paths (unwrap of an Option, the match-arm panics) are modelled
    with Except CpuFault; Option-returning helpers keep their Option type.
  * The interconnect (bus) is not under src/ and is modelled from the spec
    (see the doc comment of Interconnect).
-/

set_option maxRecDepth 10000
set_option maxHeartbeats 1000000

namespace GB

/-- Flag masks ZF NF HF CF, from the constant block of dmg_cpu.rs. -/
def ZF : Nat := 0x80

def NF : Nat := 0x40

def HF : Nat := 0x20

def CF : Nat := 0x10

/-- 8-bit register ids, from the constant block of dmg_cpu.rs. -/
def A_ID : Nat := 0b111

def B_ID : Nat := 0b000

def C_ID : Nat := 0b001

def D_ID : Nat := 0b010

def E_ID : Nat := 0b011

def H_ID : Nat := 0b100

def L_ID : Nat := 0b101

/-- 16-bit register ids, from the constant block of dmg_cpu.rs.
AF_ID coincides with SP_ID (0b11), as in the source. -/
def BC_ID : Nat := 0b00

def DE_ID : Nat := 0b01

def HL_ID : Nat := 0b10

def SP_ID : Nat := 0b11

def AF_ID : Nat := 0b11

/-- Modelled from the spec: the interconnect (bus) lives outside src/ and is
declared out of scope by the spec, which gives it a byte read/write API over a
16-bit address space plus two mutable interrupt bytes IF (int_flags) and
IE (int_enable).  The memory map is a function from addresses to stored
bytes; cycle_flush advances peripherals, which hold no CPU-visible state
here, so it is the identity on this structure. -/
structure Interconnect where
  mem : Nat → Nat
  int_flags : Nat
  int_enable : Nat

/-- Bus read: one byte at a 16-bit address. -/
def Interconnect.read (ic : Interconnect) (addr : Nat) : Nat :=
  ic.mem (addr % 65536) % 256

/-- Bus write: one byte at a 16-bit address. -/
def Interconnect.write (ic : Interconnect) (addr val : Nat) : Interconnect :=
  { ic with mem := fun x => if x = addr % 65536 then val % 256 else ic.mem x }

/-- The register file of struct Registers in dmg_cpu.rs: eight 8-bit
registers, the three stored pair registers bc/de/hl (stored separately from
their halves, exactly as in the source), f, sp, pc and the IME latch. -/
structure Registers where
  a : Nat
  b : Nat
  c : Nat
  d : Nat
  e : Nat
  h : Nat
  l : Nat
  bc : Nat
  de : Nat
  hl : Nat
  f : Nat
  sp : Nat
  pc : Nat
  ime : Bool

/-- struct Cpu of dmg_cpu.rs: registers, the private 64 KiB stack array
(a separate store from the bus memory, exactly as in the source), the two
mode flags and the interconnect. -/
structure Cpu where
  reg : Registers
  stack : Nat → Nat
  halt_mode : Bool
  stop_mode : Bool
  interconnect : Interconnect

/-- enum ProgramCounter of dmg_cpu.rs: Next(bytes, cycles) advances PC by a
signed byte count, Jump(addr, cycles) sets PC. -/
inductive ProgramCounter where
  | Next : Int → Nat → ProgramCounter
  | Jump : Nat → Nat → ProgramCounter

/-- The panic sites of dmg_cpu.rs, as error values of the embedding.
invalidRegister covers the unwrap() of read_from_r8 / read_from_r16 /
pp_read_r16 and the panic arms of write_to_r8 / write_to_r16 / pp_write_r16;
the others cover the remaining panic! arms. -/
inductive CpuFault where
  | invalidRegister
  | invalidCC
  | invalidRst
  | invalidInterrupt
  | undefinedOpcode
  | undefinedCB
deriving DecidableEq

/-- read_from_r8 of dmg_cpu.rs: value of the register with a 3-bit id,
none for an invalid id (in particular 0b110). -/
def read_from_r8 (id : Nat) (r : Registers) : Option Nat :=
  if id = A_ID then some (r.a % 256)
  else if id = B_ID then some (r.b % 256)
  else if id = C_ID then some (r.c % 256)
  else if id = D_ID then some (r.d % 256)
  else if id = E_ID then some (r.e % 256)
  else if id = H_ID then some (r.h % 256)
  else if id = L_ID then some (r.l % 256)
  else none

/-- write_to_r8 of dmg_cpu.rs: writes a half register and refreshes the
corresponding stored pair, none models the panic on an invalid id.  The A
branch updates only the a field, exactly as the source does. -/
def write_to_r8 (id content : Nat) (r : Registers) : Option Registers :=
  if id = A_ID then some { r with a := content % 256 }
  else if id = B_ID then
    some { r with b := content % 256,
                  bc := ((r.bc % 65536) &&& 0x00FF) ||| ((content % 256) <<< 8) }
  else if id = C_ID then
    some { r with c := content % 256,
                  bc := ((r.bc % 65536) &&& 0xFF00) ||| (content % 256) }
  else if id = D_ID then
    some { r with d := content % 256,
                  de := ((r.de % 65536) &&& 0x00FF) ||| ((content % 256) <<< 8) }
  else if id = E_ID then
    some { r with e := content % 256,
                  de := ((r.de % 65536) &&& 0xFF00) ||| (content % 256) }
  else if id = H_ID then
    some { r with h := content % 256,
                  hl := ((r.hl % 65536) &&& 0x00FF) ||| ((content % 256) <<< 8) }
  else if id = L_ID then
    some { r with l := content % 256,
                  hl := ((r.hl % 65536) &&& 0xFF00) ||| (content % 256) }
  else none

/-- read_from_r16 of dmg_cpu.rs. -/
def read_from_r16 (id : Nat) (r : Registers) : Option Nat :=
  if id = BC_ID then some (r.bc % 65536)
  else if id = DE_ID then some (r.de % 65536)
  else if id = HL_ID then some (r.hl % 65536)
  else if id = SP_ID then some (r.sp % 65536)
  else none

/-- pp_read_r16 of dmg_cpu.rs: the push/pop variant where id 0b11 denotes AF,
assembled from A and F. -/
def pp_read_r16 (id : Nat) (r : Registers) : Option Nat :=
  if id = BC_ID then some (r.bc % 65536)
  else if id = DE_ID then some (r.de % 65536)
  else if id = HL_ID then some (r.hl % 65536)
  else if id = AF_ID then some (((r.a % 256) <<< 8) ||| (r.f % 256))
  else none

/-- write_to_r16 of dmg_cpu.rs: writes the stored pair and both halves;
the SP branch writes only sp. -/
def write_to_r16 (id content : Nat) (r : Registers) : Option Registers :=
  let msb := (content % 65536) >>> 8
  let lsb := content &&& 0x00FF
  if id = BC_ID then some { r with bc := content % 65536, b := msb, c := lsb }
  else if id = DE_ID then some { r with de := content % 65536, d := msb, e := lsb }
  else if id = HL_ID then some { r with hl := content % 65536, h := msb, l := lsb }
  else if id = SP_ID then some { r with sp := content % 65536 }
  else none

/-- pp_write_r16 of dmg_cpu.rs: push/pop variant; the AF branch assigns
a := msb and f := lsb with no masking of the low nibble of F, exactly as the
source does. -/
def pp_write_r16 (id content : Nat) (r : Registers) : Option Registers :=
  let msb := (content % 65536) >>> 8
  let lsb := content &&& 0x00FF
  if id = BC_ID then some { r with bc := content % 65536, b := msb, c := lsb }
  else if id = DE_ID then some { r with de := content % 65536, d := msb, e := lsb }
  else if id = HL_ID then some { r with hl := content % 65536, h := msb, l := lsb }
  else if id = AF_ID then some { r with a := msb, f := lsb }
  else none

/-- set_flag of dmg_cpu.rs. -/
def set_flag (flag f : Nat) : Nat := f ||| flag

/-- reset_flag of dmg_cpu.rs: its match on the four flag constants,
any other argument leaves f untouched. -/
def reset_flag (flag f : Nat) : Nat :=
  if flag = ZF then f &&& 0b01111111
  else if flag = NF then f &&& 0b10111111
  else if flag = HF then f &&& 0b11011111
  else if flag = CF then f &&& 0b11101111
  else f

/-- The `if cond {set_flag} else {reset_flag}` pattern of set_hcnz and
friends. -/
def apply_flag (cond : Bool) (flag f : Nat) : Nat :=
  if cond then set_flag flag f else reset_flag flag f

/-- set_hcnz of dmg_cpu.rs: updates H, C, N, Z in that order. -/
def set_hcnz (h c n z : Bool) (s : Cpu) : Cpu :=
  let f := apply_flag h HF s.reg.f
  let f := apply_flag c CF f
  let f := apply_flag n NF f
  let f := apply_flag z ZF f
  { s with reg := { s.reg with f := f } }

/-- set_hnz of dmg_cpu.rs. -/
def set_hnz (h n z : Bool) (s : Cpu) : Cpu :=
  let f := apply_flag h HF s.reg.f
  let f := apply_flag n NF f
  let f := apply_flag z ZF f
  { s with reg := { s.reg with f := f } }

/-- set_hcn of dmg_cpu.rs. -/
def set_hcn (h c n : Bool) (s : Cpu) : Cpu :=
  let f := apply_flag h HF s.reg.f
  let f := apply_flag c CF f
  let f := apply_flag n NF f
  { s with reg := { s.reg with f := f } }

/-- get_n of dmg_cpu.rs: the byte after the opcode. -/
def get_n (s : Cpu) : Nat := s.interconnect.read (s.reg.pc + 1)

/-- get_nn of dmg_cpu.rs: little-endian 16-bit immediate after the opcode. -/
def get_nn (s : Cpu) : Nat :=
  let nn_low := s.interconnect.read (s.reg.pc + 1)
  let nn_high := s.interconnect.read (s.reg.pc + 2)
  (nn_high <<< 8) ||| nn_low

/-- get_r8_to of dmg_cpu.rs: bits 5..3 of the opcode byte. -/
def get_r8_to (s : Cpu) : Nat :=
  (s.interconnect.read s.reg.pc &&& 0b00111000) >>> 3

/-- get_r8_from of dmg_cpu.rs: bits 2..0 of the opcode byte. -/
def get_r8_from (s : Cpu) : Nat :=
  s.interconnect.read s.reg.pc &&& 0b00000111

/-- get_r16 of dmg_cpu.rs: bits 5..4 of the opcode byte. -/
def get_r16 (s : Cpu) : Nat :=
  (s.interconnect.read s.reg.pc &&& 0b00110000) >>> 4

/-- check_cc of dmg_cpu.rs: condition field at bits 4..3; none models the
panic arm (unreachable, the field has two bits). -/
def check_cc (s : Cpu) : Option Bool :=
  let opcode := s.interconnect.read s.reg.pc
  let cc := (opcode &&& 0b00011000) >>> 3
  if cc = 0b00 then some (s.reg.f &&& ZF == 0)
  else if cc = 0b01 then some (s.reg.f &&& ZF != 0)
  else if cc = 0b10 then some (s.reg.f &&& CF == 0)
  else if cc = 0b11 then some (s.reg.f &&& CF != 0)
  else none

/-- push_u16 of dmg_cpu.rs: writes the high byte of val to the PRIVATE stack
array at SP-1 and the low byte at SP-2 (not through the bus), then SP -= 2,
u16 arithmetic wrapping. -/
def push_u16 (val : Nat) (s : Cpu) : Cpu :=
  let sp := s.reg.sp % 65536
  let st := fun x => if x = (sp + 65535) % 65536 then (val % 65536) >>> 8 else s.stack x
  let st2 := fun x => if x = (sp + 65534) % 65536 then val &&& 0x00FF else st x
  { s with stack := st2, reg := { s.reg with sp := (sp + 65534) % 65536 } }

/-- pop_u16 of dmg_cpu.rs: reads the low byte from the PRIVATE stack array at
SP and the high byte at SP+1, then SP += 2; returns the popped value. -/
def pop_u16 (s : Cpu) : Cpu × Nat :=
  let sp := s.reg.sp % 65536
  let lsb := s.stack sp % 256
  let msb := s.stack ((sp + 1) % 65536) % 256
  ({ s with reg := { s.reg with sp := (sp + 2) % 65536 } }, (msb <<< 8) ||| lsb)

/-- load_mem_to_r8 of dmg_cpu.rs: bus read into a register; write_to_r8 can
panic on an invalid id. -/
def load_mem_to_r8 (id addr : Nat) (s : Cpu) : Except CpuFault Cpu :=
  let res := s.interconnect.read addr
  match write_to_r8 id res s.reg with
  | some r => .ok { s with reg := r }
  | none => .error .invalidRegister

/-- save_r8_to_mem of dmg_cpu.rs: register to bus write; a None read is
silently ignored, as in the source. -/
def save_r8_to_mem (id addr : Nat) (s : Cpu) : Cpu :=
  match read_from_r8 id s.reg with
  | some content => { s with interconnect := s.interconnect.write addr content }
  | none => s

/-- save_r16_to_mem of dmg_cpu.rs: low byte to addr, high byte to addr+1. -/
def save_r16_to_mem (id addr : Nat) (s : Cpu) : Cpu :=
  match read_from_r16 id s.reg with
  | some value =>
      let ic := s.interconnect.write addr (value &&& 0x00FF)
      let ic2 := ic.write (addr + 1) ((value % 65536) >>> 8)
      { s with interconnect := ic2 }
  | none => s

/-- rotate_r8 of dmg_cpu.rs: rotate one 8-bit register left/right, with or
without carry; a None read returns early, the write-back unwrap is the
error case; flags via set_hcnz(false, c, false, data == 0). -/
def rotate_r8 (id : Nat) (is_rotate_left has_carry : Bool) (s : Cpu) :
    Except CpuFault Cpu :=
  match read_from_r8 id s.reg with
  | none => .ok s
  | some value =>
      let bit_cf := (s.reg.f &&& CF) >>> 4
      let dc :=
        if is_rotate_left then
          let bit_a7 := (value &&& 0x80) >>> 7
          let data := (value <<< 1) % 256
          let data := if has_carry then data ||| bit_a7 else data ||| bit_cf
          (data, decide (bit_a7 > 0))
        else
          let bit_a0 := value &&& 0x01
          let data := value >>> 1
          let data := if has_carry then data ||| (bit_a0 <<< 7) else data ||| (bit_cf <<< 7)
          (data, decide (bit_a0 > 0))
      match write_to_r8 id dc.1 s.reg with
      | some r => .ok (set_hcnz false dc.2 false (dc.1 == 0) { s with reg := r })
      | none => .error .invalidRegister

/-- rotate_mem of dmg_cpu.rs: same rotation on the byte at a bus address. -/
def rotate_mem (addr : Nat) (is_left_rotate has_carry : Bool) (s : Cpu) : Cpu :=
  let value := s.interconnect.read addr
  let bit_cf := (s.reg.f &&& CF) >>> 4
  let dc :=
    if is_left_rotate then
      let bit_a7 := (value &&& 0x80) >>> 7
      let data := (value <<< 1) % 256
      let data := if has_carry then data ||| bit_a7 else data ||| bit_cf
      (data, decide (bit_a7 > 0))
    else
      let bit_a0 := value &&& 0x01
      let data := value >>> 1
      let data := if has_carry then data ||| (bit_a0 <<< 7) else data ||| (bit_cf <<< 7)
      (data, decide (bit_a0 > 0))
  let s2 := { s with interconnect := s.interconnect.write addr dc.1 }
  set_hcnz false dc.2 false (dc.1 == 0) s2

/-- Two's-complement reinterpretation of a byte, Rust `as i8`. -/
def toI8 (n : Nat) : Int :=
  if n % 256 < 128 then (n % 256 : Int) else (n % 256 : Int) - 256

/-- Two's-complement reinterpretation of a 16-bit word, Rust `as i16`. -/
def toI16 (n : Nat) : Int :=
  if n % 65536 < 32768 then (n % 65536 : Int) else (n % 65536 : Int) - 65536

/-- Wrapping of an Int into i16 range, Rust i16::wrapping_add result. -/
def wrapI16 (x : Int) : Int := (x + 32768).emod 65536 - 32768

/-- Rust u8 wrapping_sub. -/
def wrapping_sub8 (a b : Nat) : Nat := (a % 256 + 256 - b % 256) % 256

/-- Result and flags of one 8-bit ALU operation. -/
structure AluOut where
  res : Nat
  h : Bool
  c : Bool
  n : Bool
  z : Bool
deriving DecidableEq

/-- Processing and flag lines shared verbatim by add_ar / add_an / add_ahl
in dmg_cpu.rs (the three handlers triplicate these exact lines). -/
def add_compute (a r : Nat) : AluOut :=
  let res := a + r
  let h := decide ((a &&& 0x0F) + (r &&& 0x0F) > 0x0F)
  let c := decide (res > 0xFF)
  let to_write := res &&& 0xFF
  { res := to_write, h := h, c := c, n := false, z := to_write == 0 }

/-- Processing and flag lines shared verbatim by adc_ar / adc_an / adc_ahl. -/
def adc_compute (a r carry : Nat) : AluOut :=
  let res := a + r + carry
  let h := decide ((a &&& 0x0F) + (r &&& 0x0F) + (carry &&& 0x0F) > 0x0F)
  let c := decide (res > 0xFF)
  let to_write := res &&& 0xFF
  { res := to_write, h := h, c := c, n := false, z := to_write == 0 }

/-- Processing and flag lines shared verbatim by sub_r / sub_n / sub_hl and
(flags only) cp_r / cp_n / cp_hl.  checked_sub == None is embedded as the
underflow test it performs. -/
def sub_compute (a r : Nat) : AluOut :=
  let res := wrapping_sub8 a r
  let h := decide ((a &&& 0x0F) < (r &&& 0x0F))
  let c := decide (a < r)
  { res := res, h := h, c := c, n := true, z := res == 0 }

/-- Processing and flag lines shared verbatim by sbc_ar / sbc_an / sbc_ahl. -/
def sbc_compute (a r carry : Nat) : AluOut :=
  let res := wrapping_sub8 (wrapping_sub8 a r) carry
  let h := decide ((a &&& 0x0F) < (r &&& 0x0F) + carry)
  let c := decide (a < r + carry)
  { res := res, h := h, c := c, n := true, z := res == 0 }

/-- Processing and flag lines shared verbatim by and_r / and_n / and_hl. -/
def and_compute (a r : Nat) : AluOut :=
  let res := a &&& r
  { res := res, h := true, c := false, n := false, z := res == 0 }

/-- Processing and flag lines shared verbatim by or_r / or_n / or_hl. -/
def or_compute (a r : Nat) : AluOut :=
  let res := a ||| r
  { res := res, h := false, c := false, n := false, z := res == 0 }

/-- Processing and flag lines shared verbatim by xor_r / xor_n / xor_hl. -/
def xor_compute (a r : Nat) : AluOut :=
  let res := a ^^^ r
  { res := res, h := false, c := false, n := false, z := res == 0 }

/-- write_a of dmg_cpu.rs: write_to_r8 specialized at A_ID, whose branch
only assigns the a field. -/
def write_a (v : Nat) (s : Cpu) : Cpu :=
  { s with reg := { s.reg with a := v % 256 } }

/-- The carry input `((self.reg.f & CF) > 0) as u8` used by adc/sbc. -/
def carry_in (s : Cpu) : Nat := if s.reg.f &&& CF > 0 then 1 else 0

/-- ld_rx_ry of dmg_cpu.rs: a None read is ignored, the write can panic. -/
def ld_rx_ry (s : Cpu) : Except CpuFault (Cpu × ProgramCounter) :=
  let rx := get_r8_to s
  let ry := get_r8_from s
  match read_from_r8 ry s.reg with
  | some value =>
      match write_to_r8 rx value s.reg with
      | some r => .ok ({ s with reg := r }, .Next 1 1)
      | none => .error .invalidRegister
  | none => .ok (s, .Next 1 1)

/-- ld_r_n of dmg_cpu.rs. -/
def ld_r_n (s : Cpu) : Except CpuFault (Cpu × ProgramCounter) :=
  let r := get_r8_to s
  let n := get_n s
  match write_to_r8 r n s.reg with
  | some reg => .ok ({ s with reg := reg }, .Next 2 2)
  | none => .error .invalidRegister

/-- ld_r_addr_hl of dmg_cpu.rs. -/
def ld_r_addr_hl (s : Cpu) : Except CpuFault (Cpu × ProgramCounter) :=
  let r := get_r8_to s
  match load_mem_to_r8 r s.reg.hl s with
  | .ok s2 => .ok (s2, .Next 1 2)
  | .error e => .error e

/-- ld_addr_hl_r of dmg_cpu.rs: save_r8_to_mem ignores an invalid id. -/
def ld_addr_hl_r (s : Cpu) : Except CpuFault (Cpu × ProgramCounter) :=
  let r := get_r8_from s
  .ok (save_r8_to_mem r s.reg.hl s, .Next 1 2)

/-- ld_addr_hl_n of dmg_cpu.rs. -/
def ld_addr_hl_n (s : Cpu) : Except CpuFault (Cpu × ProgramCounter) :=
  let n := get_n s
  .ok ({ s with interconnect := s.interconnect.write s.reg.hl n }, .Next 2 3)

/-- ld_a_addr_bc of dmg_cpu.rs. -/
def ld_a_addr_bc (s : Cpu) : Except CpuFault (Cpu × ProgramCounter) :=
  match load_mem_to_r8 A_ID s.reg.bc s with
  | .ok s2 => .ok (s2, .Next 1 2)
  | .error e => .error e

/-- ld_a_addr_de of dmg_cpu.rs. -/
def ld_a_addr_de (s : Cpu) : Except CpuFault (Cpu × ProgramCounter) :=
  match load_mem_to_r8 A_ID s.reg.de s with
  | .ok s2 => .ok (s2, .Next 1 2)
  | .error e => .error e

/-- ldh_a_addr_offset_c of dmg_cpu.rs. -/
def ldh_a_addr_offset_c (s : Cpu) : Except CpuFault (Cpu × ProgramCounter) :=
  match load_mem_to_r8 A_ID (0xFF00 + s.reg.c % 256) s with
  | .ok s2 => .ok (s2, .Next 1 2)
  | .error e => .error e

/-- ldh_addr_offset_c_a of dmg_cpu.rs. -/
def ldh_addr_offset_c_a (s : Cpu) : Except CpuFault (Cpu × ProgramCounter) :=
  .ok (save_r8_to_mem A_ID (0xFF00 + s.reg.c % 256) s, .Next 1 2)

/-- ldh_a_addr_offset_n of dmg_cpu.rs. -/
def ldh_a_addr_offset_n (s : Cpu) : Except CpuFault (Cpu × ProgramCounter) :=
  let n := get_n s
  match load_mem_to_r8 A_ID (0xFF00 + n) s with
  | .ok s2 => .ok (s2, .Next 2 3)
  | .error e => .error e

/-- ldh_addr_offset_n_a of dmg_cpu.rs. -/
def ldh_addr_offset_n_a (s : Cpu) : Except CpuFault (Cpu × ProgramCounter) :=
  let n := get_n s
  .ok (save_r8_to_mem A_ID (0xFF00 + n) s, .Next 2 3)

/-- ld_a_addr_nn of dmg_cpu.rs. -/
def ld_a_addr_nn (s : Cpu) : Except CpuFault (Cpu × ProgramCounter) :=
  let nn := get_nn s
  match load_mem_to_r8 A_ID nn s with
  | .ok s2 => .ok (s2, .Next 3 4)
  | .error e => .error e

/-- ld_addr_nn_a of dmg_cpu.rs. -/
def ld_addr_nn_a (s : Cpu) : Except CpuFault (Cpu × ProgramCounter) :=
  let nn := get_nn s
  .ok (save_r8_to_mem A_ID nn s, .Next 3 4)

/-- ld_a_addr_hl_inc of dmg_cpu.rs. -/
def ld_a_addr_hl_inc (s : Cpu) : Except CpuFault (Cpu × ProgramCounter) :=
  match load_mem_to_r8 A_ID s.reg.hl s with
  | .ok s2 =>
      match write_to_r16 HL_ID (s2.reg.hl + 1) s2.reg with
      | some r => .ok ({ s2 with reg := r }, .Next 1 2)
      | none => .error .invalidRegister
  | .error e => .error e

/-- ld_a_addr_hl_dec of dmg_cpu.rs; the u16 subtraction wraps. -/
def ld_a_addr_hl_dec (s : Cpu) : Except CpuFault (Cpu × ProgramCounter) :=
  match load_mem_to_r8 A_ID s.reg.hl s with
  | .ok s2 =>
      match write_to_r16 HL_ID (s2.reg.hl % 65536 + 65535) s2.reg with
      | some r => .ok ({ s2 with reg := r }, .Next 1 2)
      | none => .error .invalidRegister
  | .error e => .error e

/-- ld_addr_bc_a of dmg_cpu.rs. -/
def ld_addr_bc_a (s : Cpu) : Except CpuFault (Cpu × ProgramCounter) :=
  .ok (save_r8_to_mem A_ID s.reg.bc s, .Next 1 2)

/-- ld_addr_de_a of dmg_cpu.rs. -/
def ld_addr_de_a (s : Cpu) : Except CpuFault (Cpu × ProgramCounter) :=
  .ok (save_r8_to_mem A_ID s.reg.de s, .Next 1 2)

/-- ld_addr_hl_a_inc of dmg_cpu.rs. -/
def ld_addr_hl_a_inc (s : Cpu) : Except CpuFault (Cpu × ProgramCounter) :=
  let s2 := save_r8_to_mem A_ID s.reg.hl s
  match write_to_r16 HL_ID (s2.reg.hl + 1) s2.reg with
  | some r => .ok ({ s2 with reg := r }, .Next 1 2)
  | none => .error .invalidRegister

/-- ld_addr_hl_a_dec of dmg_cpu.rs. -/
def ld_addr_hl_a_dec (s : Cpu) : Except CpuFault (Cpu × ProgramCounter) :=
  let s2 := save_r8_to_mem A_ID s.reg.hl s
  match write_to_r16 HL_ID (s2.reg.hl % 65536 + 65535) s2.reg with
  | some r => .ok ({ s2 with reg := r }, .Next 1 2)
  | none => .error .invalidRegister

/-- ld_rr_nn of dmg_cpu.rs. -/
def ld_rr_nn (s : Cpu) : Except CpuFault (Cpu × ProgramCounter) :=
  let rr := get_r16 s
  let nn := get_nn s
  match write_to_r16 rr nn s.reg with
  | some r => .ok ({ s with reg := r }, .Next 3 3)
  | none => .error .invalidRegister

/-- ld_addr_nn_sp of dmg_cpu.rs. -/
def ld_addr_nn_sp (s : Cpu) : Except CpuFault (Cpu × ProgramCounter) :=
  let nn := get_nn s
  .ok (save_r16_to_mem SP_ID nn s, .Next 3 5)

/-- ld_sp_hl of dmg_cpu.rs. -/
def ld_sp_hl (s : Cpu) : Except CpuFault (Cpu × ProgramCounter) :=
  .ok ({ s with reg := { s.reg with sp := s.reg.hl % 65536 } }, .Next 1 2)

/-- push_rr of dmg_cpu.rs: pp_read_r16(..).unwrap() then push_u16. -/
def push_rr (s : Cpu) : Except CpuFault (Cpu × ProgramCounter) :=
  let rr := get_r16 s
  match pp_read_r16 rr s.reg with
  | some val => .ok (push_u16 val s, .Next 1 4)
  | none => .error .invalidRegister

/-- pop_rr of dmg_cpu.rs: pop_u16 then pp_write_r16. -/
def pop_rr (s : Cpu) : Except CpuFault (Cpu × ProgramCounter) :=
  let rr := get_r16 s
  let sv := pop_u16 s
  match pp_write_r16 rr sv.2 sv.1.reg with
  | some r => .ok ({ sv.1 with reg := r }, .Next 1 3)
  | none => .error .invalidRegister

/-- ld_hl_sp_e of dmg_cpu.rs: i16 arithmetic with sign-dependent flag
formulas; the i16 bitwise masks on possibly negative values are the
corresponding emod operations. -/
def ld_hl_sp_e (s : Cpu) : Except CpuFault (Cpu × ProgramCounter) :=
  let e : Int := toI8 (get_n s)
  let new_hl : Int := wrapI16 (toI16 s.reg.sp + e)
  let sp_reg : Int := toI16 s.reg.sp
  let c : Bool :=
    if e ≥ 0 then decide (sp_reg.emod 256 + e > 0xFF)
    else decide (new_hl.emod 256 ≤ sp_reg.emod 256)
  let h : Bool :=
    if e ≥ 0 then decide (sp_reg.emod 16 + e.emod 16 > 0xF)
    else decide (new_hl.emod 16 ≤ sp_reg.emod 16)
  let s2 := set_hcnz h c false false s
  match write_to_r16 HL_ID (new_hl.emod 65536).toNat s2.reg with
  | some r => .ok ({ s2 with reg := r }, .Next 2 3)
  | none => .error .invalidRegister

/-- add_ar of dmg_cpu.rs. -/
def add_ar (s : Cpu) : Except CpuFault (Cpu × ProgramCounter) :=
  match read_from_r8 A_ID s.reg with
  | none => .error .invalidRegister
  | some a =>
      let idx := get_r8_from s
      match read_from_r8 idx s.reg with
      | none => .error .invalidRegister
      | some r =>
          let o := add_compute a r
          .ok (set_hcnz o.h o.c o.n o.z (write_a o.res s), .Next 1 1)

/-- add_an of dmg_cpu.rs. -/
def add_an (s : Cpu) : Except CpuFault (Cpu × ProgramCounter) :=
  match read_from_r8 A_ID s.reg with
  | none => .error .invalidRegister
  | some a =>
      let r := get_n s
      let o := add_compute a r
      .ok (set_hcnz o.h o.c o.n o.z (write_a o.res s), .Next 2 2)

/-- add_ahl of dmg_cpu.rs. -/
def add_ahl (s : Cpu) : Except CpuFault (Cpu × ProgramCounter) :=
  match read_from_r8 A_ID s.reg with
  | none => .error .invalidRegister
  | some a =>
      let r := s.interconnect.read s.reg.hl
      let o := add_compute a r
      .ok (set_hcnz o.h o.c o.n o.z (write_a o.res s), .Next 1 2)

/-- adc_ar of dmg_cpu.rs. -/
def adc_ar (s : Cpu) : Except CpuFault (Cpu × ProgramCounter) :=
  match read_from_r8 A_ID s.reg with
  | none => .error .invalidRegister
  | some a =>
      let idx := get_r8_from s
      match read_from_r8 idx s.reg with
      | none => .error .invalidRegister
      | some r =>
          let o := adc_compute a r (carry_in s)
          .ok (set_hcnz o.h o.c o.n o.z (write_a o.res s), .Next 1 1)

/-- adc_an of dmg_cpu.rs. -/
def adc_an (s : Cpu) : Except CpuFault (Cpu × ProgramCounter) :=
  match read_from_r8 A_ID s.reg with
  | none => .error .invalidRegister
  | some a =>
      let r := get_n s
      let o := adc_compute a r (carry_in s)
      .ok (set_hcnz o.h o.c o.n o.z (write_a o.res s), .Next 2 2)

/-- adc_ahl of dmg_cpu.rs. -/
def adc_ahl (s : Cpu) : Except CpuFault (Cpu × ProgramCounter) :=
  match read_from_r8 A_ID s.reg with
  | none => .error .invalidRegister
  | some a =>
      let r := s.interconnect.read s.reg.hl
      let o := adc_compute a r (carry_in s)
      .ok (set_hcnz o.h o.c o.n o.z (write_a o.res s), .Next 1 2)

/-- sub_r of dmg_cpu.rs. -/
def sub_r (s : Cpu) : Except CpuFault (Cpu × ProgramCounter) :=
  match read_from_r8 A_ID s.reg with
  | none => .error .invalidRegister
  | some a =>
      let idx := get_r8_from s
      match read_from_r8 idx s.reg with
      | none => .error .invalidRegister
      | some r =>
          let o := sub_compute a r
          .ok (set_hcnz o.h o.c o.n o.z (write_a o.res s), .Next 1 1)

/-- sub_n of dmg_cpu.rs. -/
def sub_n (s : Cpu) : Except CpuFault (Cpu × ProgramCounter) :=
  match read_from_r8 A_ID s.reg with
  | none => .error .invalidRegister
  | some a =>
      let r := get_n s
      let o := sub_compute a r
      .ok (set_hcnz o.h o.c o.n o.z (write_a o.res s), .Next 2 2)

/-- sub_hl of dmg_cpu.rs. -/
def sub_hl (s : Cpu) : Except CpuFault (Cpu × ProgramCounter) :=
  match read_from_r8 A_ID s.reg with
  | none => .error .invalidRegister
  | some a =>
      let r := s.interconnect.read s.reg.hl
      let o := sub_compute a r
      .ok (set_hcnz o.h o.c o.n o.z (write_a o.res s), .Next 1 2)

/-- sbc_ar of dmg_cpu.rs. -/
def sbc_ar (s : Cpu) : Except CpuFault (Cpu × ProgramCounter) :=
  match read_from_r8 A_ID s.reg with
  | none => .error .invalidRegister
  | some a =>
      let idx := get_r8_from s
      match read_from_r8 idx s.reg with
      | none => .error .invalidRegister
      | some r =>
          let o := sbc_compute a r (carry_in s)
          .ok (set_hcnz o.h o.c o.n o.z (write_a o.res s), .Next 1 1)

/-- sbc_an of dmg_cpu.rs. -/
def sbc_an (s : Cpu) : Except CpuFault (Cpu × ProgramCounter) :=
  match read_from_r8 A_ID s.reg with
  | none => .error .invalidRegister
  | some a =>
      let r := get_n s
      let o := sbc_compute a r (carry_in s)
      .ok (set_hcnz o.h o.c o.n o.z (write_a o.res s), .Next 2 2)

/-- sbc_ahl of dmg_cpu.rs. -/
def sbc_ahl (s : Cpu) : Except CpuFault (Cpu × ProgramCounter) :=
  match read_from_r8 A_ID s.reg with
  | none => .error .invalidRegister
  | some a =>
      let r := s.interconnect.read s.reg.hl
      let o := sbc_compute a r (carry_in s)
      .ok (set_hcnz o.h o.c o.n o.z (write_a o.res s), .Next 1 2)

/-- and_r of dmg_cpu.rs. -/
def and_r (s : Cpu) : Except CpuFault (Cpu × ProgramCounter) :=
  match read_from_r8 A_ID s.reg with
  | none => .error .invalidRegister
  | some a =>
      let idx := get_r8_from s
      match read_from_r8 idx s.reg with
      | none => .error .invalidRegister
      | some r =>
          let o := and_compute a r
          .ok (set_hcnz o.h o.c o.n o.z (write_a o.res s), .Next 1 1)

/-- and_n of dmg_cpu.rs. -/
def and_n (s : Cpu) : Except CpuFault (Cpu × ProgramCounter) :=
  match read_from_r8 A_ID s.reg with
  | none => .error .invalidRegister
  | some a =>
      let r := get_n s
      let o := and_compute a r
      .ok (set_hcnz o.h o.c o.n o.z (write_a o.res s), .Next 2 2)

/-- and_hl of dmg_cpu.rs. -/
def and_hl (s : Cpu) : Except CpuFault (Cpu × ProgramCounter) :=
  match read_from_r8 A_ID s.reg with
  | none => .error .invalidRegister
  | some a =>
      let r := s.interconnect.read s.reg.hl
      let o := and_compute a r
      .ok (set_hcnz o.h o.c o.n o.z (write_a o.res s), .Next 1 2)

/-- or_r of dmg_cpu.rs. -/
def or_r (s : Cpu) : Except CpuFault (Cpu × ProgramCounter) :=
  match read_from_r8 A_ID s.reg with
  | none => .error .invalidRegister
  | some a =>
      let idx := get_r8_from s
      match read_from_r8 idx s.reg with
      | none => .error .invalidRegister
      | some r =>
          let o := or_compute a r
          .ok (set_hcnz o.h o.c o.n o.z (write_a o.res s), .Next 1 1)

/-- or_n of dmg_cpu.rs. -/
def or_n (s : Cpu) : Except CpuFault (Cpu × ProgramCounter) :=
  match read_from_r8 A_ID s.reg with
  | none => .error .invalidRegister
  | some a =>
      let r := get_n s
      let o := or_compute a r
      .ok (set_hcnz o.h o.c o.n o.z (write_a o.res s), .Next 2 2)

/-- or_hl of dmg_cpu.rs. -/
def or_hl (s : Cpu) : Except CpuFault (Cpu × ProgramCounter) :=
  match read_from_r8 A_ID s.reg with
  | none => .error .invalidRegister
  | some a =>
      let r := s.interconnect.read s.reg.hl
      let o := or_compute a r
      .ok (set_hcnz o.h o.c o.n o.z (write_a o.res s), .Next 1 2)

/-- xor_r of dmg_cpu.rs. -/
def xor_r (s : Cpu) : Except CpuFault (Cpu × ProgramCounter) :=
  match read_from_r8 A_ID s.reg with
  | none => .error .invalidRegister
  | some a =>
      let idx := get_r8_from s
      match read_from_r8 idx s.reg with
      | none => .error .invalidRegister
      | some r =>
          let o := xor_compute a r
          .ok (set_hcnz o.h o.c o.n o.z (write_a o.res s), .Next 1 1)

/-- xor_n of dmg_cpu.rs. -/
def xor_n (s : Cpu) : Except CpuFault (Cpu × ProgramCounter) :=
  match read_from_r8 A_ID s.reg with
  | none => .error .invalidRegister
  | some a =>
      let r := get_n s
      let o := xor_compute a r
      .ok (set_hcnz o.h o.c o.n o.z (write_a o.res s), .Next 2 2)

/-- xor_hl of dmg_cpu.rs. -/
def xor_hl (s : Cpu) : Except CpuFault (Cpu × ProgramCounter) :=
  match read_from_r8 A_ID s.reg with
  | none => .error .invalidRegister
  | some a =>
      let r := s.interconnect.read s.reg.hl
      let o := xor_compute a r
      .ok (set_hcnz o.h o.c o.n o.z (write_a o.res s), .Next 1 2)

/-- cp_r of dmg_cpu.rs: flags of sub, no write back to A. -/
def cp_r (s : Cpu) : Except CpuFault (Cpu × ProgramCounter) :=
  match read_from_r8 A_ID s.reg with
  | none => .error .invalidRegister
  | some a =>
      let idx := get_r8_from s
      match read_from_r8 idx s.reg with
      | none => .error .invalidRegister
      | some r =>
          let o := sub_compute a r
          .ok (set_hcnz o.h o.c o.n o.z s, .Next 1 1)

/-- cp_n of dmg_cpu.rs. -/
def cp_n (s : Cpu) : Except CpuFault (Cpu × ProgramCounter) :=
  match read_from_r8 A_ID s.reg with
  | none => .error .invalidRegister
  | some a =>
      let r := get_n s
      let o := sub_compute a r
      .ok (set_hcnz o.h o.c o.n o.z s, .Next 2 2)

/-- cp_hl of dmg_cpu.rs. -/
def cp_hl (s : Cpu) : Except CpuFault (Cpu × ProgramCounter) :=
  match read_from_r8 A_ID s.reg with
  | none => .error .invalidRegister
  | some a =>
      let r := s.interconnect.read s.reg.hl
      let o := sub_compute a r
      .ok (set_hcnz o.h o.c o.n o.z s, .Next 1 2)

/-- inc_r of dmg_cpu.rs. -/
def inc_r (s : Cpu) : Except CpuFault (Cpu × ProgramCounter) :=
  let idx := get_r8_to s
  match read_from_r8 idx s.reg with
  | none => .error .invalidRegister
  | some r =>
      let res := if r = 255 then 0 else r + 1
      let h := decide (r &&& 0xF = 0xF)
      match write_to_r8 idx res s.reg with
      | some reg => .ok (set_hnz h false (res == 0) { s with reg := reg }, .Next 1 1)
      | none => .error .invalidRegister

/-- inc_hl of dmg_cpu.rs: increments the byte at (HL). -/
def inc_hl (s : Cpu) : Except CpuFault (Cpu × ProgramCounter) :=
  let r := s.interconnect.read s.reg.hl
  let res := if r = 255 then 0 else r + 1
  let h := decide (r &&& 0xF = 0xF)
  let s2 := { s with interconnect := s.interconnect.write s.reg.hl res }
  .ok (set_hnz h false (res == 0) s2, .Next 1 3)

/-- dec_r of dmg_cpu.rs. -/
def dec_r (s : Cpu) : Except CpuFault (Cpu × ProgramCounter) :=
  let idx := get_r8_to s
  match read_from_r8 idx s.reg with
  | none => .error .invalidRegister
  | some r =>
      let res := if r = 0 then 255 else r - 1
      let h := decide (r &&& 0xF = 0)
      match write_to_r8 idx res s.reg with
      | some reg => .ok (set_hnz h true (res == 0) { s with reg := reg }, .Next 1 1)
      | none => .error .invalidRegister

/-- dec_hl of dmg_cpu.rs. -/
def dec_hl (s : Cpu) : Except CpuFault (Cpu × ProgramCounter) :=
  let r := s.interconnect.read s.reg.hl
  let res := if r = 0 then 255 else r - 1
  let h := decide (r &&& 0xF = 0)
  let s2 := { s with interconnect := s.interconnect.write s.reg.hl res }
  .ok (set_hnz h true (res == 0) s2, .Next 1 3)

/-- add_hlss of dmg_cpu.rs: the pair id is bits 5..4 via (get_r8_to & 0b110) >> 1. -/
def add_hlss (s : Cpu) : Except CpuFault (Cpu × ProgramCounter) :=
  let idx := (get_r8_to s &&& 0b110) >>> 1
  match read_from_r16 idx s.reg with
  | none => .error .invalidRegister
  | some r =>
      match read_from_r16 HL_ID s.reg with
      | none => .error .invalidRegister
      | some hl =>
          let res := r + hl
          let h := decide ((hl &&& 0x0FFF) + (r &&& 0x0FFF) > 0x0FFF)
          let c := decide (res > 0xFFFF)
          let to_write := res &&& 0xFFFF
          match write_to_r16 HL_ID to_write s.reg with
          | some reg => .ok (set_hcn h c false { s with reg := reg }, .Next 1 2)
          | none => .error .invalidRegister

/-- add_spe of dmg_cpu.rs: the operand byte is zero-extended
(`get_n() as u16`, no sign extension), and the flag masks are the 12-bit
ones of add_hlss, exactly as the source computes them. -/
def add_spe (s : Cpu) : Except CpuFault (Cpu × ProgramCounter) :=
  let r := get_n s
  match read_from_r16 SP_ID s.reg with
  | none => .error .invalidRegister
  | some sp =>
      let res := r + sp
      let h := decide ((sp &&& 0x0FFF) + (r &&& 0x0FFF) > 0x0FFF)
      let c := decide (res > 0xFFFF)
      let to_write := res &&& 0xFFFF
      match write_to_r16 SP_ID to_write s.reg with
      | some reg => .ok (set_hcnz h c false false { s with reg := reg }, .Next 2 4)
      | none => .error .invalidRegister

/-- inc_ss of dmg_cpu.rs. -/
def inc_ss (s : Cpu) : Except CpuFault (Cpu × ProgramCounter) :=
  let idx := (get_r8_to s &&& 0b110) >>> 1
  match read_from_r16 idx s.reg with
  | none => .error .invalidRegister
  | some r =>
      let res := if r = 65535 then 0 else r + 1
      match write_to_r16 idx res s.reg with
      | some reg => .ok ({ s with reg := reg }, .Next 1 2)
      | none => .error .invalidRegister

/-- dec_ss of dmg_cpu.rs. -/
def dec_ss (s : Cpu) : Except CpuFault (Cpu × ProgramCounter) :=
  let idx := (get_r8_to s &&& 0b110) >>> 1
  match read_from_r16 idx s.reg with
  | none => .error .invalidRegister
  | some r =>
      let res := if r = 0 then 65535 else r - 1
      match write_to_r16 idx res s.reg with
      | some reg => .ok ({ s with reg := reg }, .Next 1 2)
      | none => .error .invalidRegister

/-- rlca of dmg_cpu.rs: rotate_r8(A_ID, left, with carry); note the Z flag
comes from rotate_r8 as data == 0, not a forced 0. -/
def rlca (s : Cpu) : Except CpuFault (Cpu × ProgramCounter) :=
  match rotate_r8 A_ID true true s with
  | .ok s2 => .ok (s2, .Next 1 1)
  | .error e => .error e

/-- rla of dmg_cpu.rs. -/
def rla (s : Cpu) : Except CpuFault (Cpu × ProgramCounter) :=
  match rotate_r8 A_ID true false s with
  | .ok s2 => .ok (s2, .Next 1 1)
  | .error e => .error e

/-- rrca of dmg_cpu.rs. -/
def rrca (s : Cpu) : Except CpuFault (Cpu × ProgramCounter) :=
  match rotate_r8 A_ID false true s with
  | .ok s2 => .ok (s2, .Next 1 1)
  | .error e => .error e

/-- rra of dmg_cpu.rs. -/
def rra (s : Cpu) : Except CpuFault (Cpu × ProgramCounter) :=
  match rotate_r8 A_ID false false s with
  | .ok s2 => .ok (s2, .Next 1 1)
  | .error e => .error e

/-- The register field of a CB opcode: the source briefly advances PC and
calls get_r8_from, which reads bits 2..0 of the byte at PC+1. -/
def cb_reg_field (s : Cpu) : Nat :=
  s.interconnect.read (s.reg.pc + 1) &&& 0b00000111

/-- rlc of dmg_cpu.rs (CB prefixed). -/
def rlc (s : Cpu) : Except CpuFault (Cpu × ProgramCounter) :=
  let r := cb_reg_field s
  if r = 0x06 then .ok (rotate_mem s.reg.hl true true s, .Next 2 4)
  else
    match rotate_r8 r true true s with
    | .ok s2 => .ok (s2, .Next 2 2)
    | .error e => .error e

/-- rl of dmg_cpu.rs (CB prefixed). -/
def rl (s : Cpu) : Except CpuFault (Cpu × ProgramCounter) :=
  let r := cb_reg_field s
  if r = 0x06 then .ok (rotate_mem s.reg.hl true false s, .Next 2 4)
  else
    match rotate_r8 r true false s with
    | .ok s2 => .ok (s2, .Next 2 2)
    | .error e => .error e

/-- rrc of dmg_cpu.rs (CB prefixed). -/
def rrc (s : Cpu) : Except CpuFault (Cpu × ProgramCounter) :=
  let r := cb_reg_field s
  if r = 0x06 then .ok (rotate_mem s.reg.hl false true s, .Next 2 4)
  else
    match rotate_r8 r false true s with
    | .ok s2 => .ok (s2, .Next 2 2)
    | .error e => .error e

/-- rr of dmg_cpu.rs (CB prefixed). -/
def rr (s : Cpu) : Except CpuFault (Cpu × ProgramCounter) :=
  let r := cb_reg_field s
  if r = 0x06 then .ok (rotate_mem s.reg.hl false false s, .Next 2 4)
  else
    match rotate_r8 r false false s with
    | .ok s2 => .ok (s2, .Next 2 2)
    | .error e => .error e

/-- sla of dmg_cpu.rs (CB prefixed). -/
def sla (s : Cpu) : Except CpuFault (Cpu × ProgramCounter) :=
  let r := cb_reg_field s
  if r = 0x06 then
    let data := s.interconnect.read s.reg.hl
    let bit_7 := (data &&& 0x80) >>> 7
    let data2 := (data <<< 1) % 256
    let s2 := { s with interconnect := s.interconnect.write s.reg.hl data2 }
    .ok (set_hcnz false (decide (bit_7 > 0)) false (data2 == 0) s2, .Next 2 4)
  else
    match read_from_r8 r s.reg with
    | none => .error .invalidRegister
    | some data =>
        let bit_7 := (data &&& 0x80) >>> 7
        let data2 := (data <<< 1) % 256
        match write_to_r8 r data2 s.reg with
        | some reg =>
            .ok (set_hcnz false (decide (bit_7 > 0)) false (data2 == 0)
                  { s with reg := reg }, .Next 2 2)
        | none => .error .invalidRegister

/-- sra of dmg_cpu.rs (CB prefixed): arithmetic shift, bit 7 kept. -/
def sra (s : Cpu) : Except CpuFault (Cpu × ProgramCounter) :=
  let r := cb_reg_field s
  if r = 0x06 then
    let data := s.interconnect.read s.reg.hl
    let bit_7 := (data &&& 0x80) >>> 7
    let bit_0 := data &&& 0x01
    let data2 := (data >>> 1) ||| (bit_7 <<< 7)
    let s2 := { s with interconnect := s.interconnect.write s.reg.hl data2 }
    .ok (set_hcnz false (decide (bit_0 > 0)) false (data2 == 0) s2, .Next 2 4)
  else
    match read_from_r8 r s.reg with
    | none => .error .invalidRegister
    | some data =>
        let bit_7 := (data &&& 0x80) >>> 7
        let bit_0 := data &&& 0x01
        let data2 := (data >>> 1) ||| (bit_7 <<< 7)
        match write_to_r8 r data2 s.reg with
        | some reg =>
            .ok (set_hcnz false (decide (bit_0 > 0)) false (data2 == 0)
                  { s with reg := reg }, .Next 2 2)
        | none => .error .invalidRegister

/-- srl of dmg_cpu.rs (CB prefixed): logical shift right. -/
def srl (s : Cpu) : Except CpuFault (Cpu × ProgramCounter) :=
  let r := cb_reg_field s
  if r = 0x06 then
    let data := s.interconnect.read s.reg.hl
    let bit_0 := data &&& 0x01
    let data2 := data >>> 1
    let s2 := { s with interconnect := s.interconnect.write s.reg.hl data2 }
    .ok (set_hcnz false (decide (bit_0 > 0)) false (data2 == 0) s2, .Next 2 4)
  else
    match read_from_r8 r s.reg with
    | none => .error .invalidRegister
    | some data =>
        let bit_0 := data &&& 0x01
        let data2 := data >>> 1
        match write_to_r8 r data2 s.reg with
        | some reg =>
            .ok (set_hcnz false (decide (bit_0 > 0)) false (data2 == 0)
                  { s with reg := reg }, .Next 2 2)
        | none => .error .invalidRegister

/-- swap of dmg_cpu.rs (CB prefixed). -/
def swap (s : Cpu) : Except CpuFault (Cpu × ProgramCounter) :=
  let r := cb_reg_field s
  if r = 0x06 then
    let data := s.interconnect.read s.reg.hl
    let data2 := ((data &&& 0x0F) <<< 4) ||| ((data &&& 0xF0) >>> 4)
    let s2 := { s with interconnect := s.interconnect.write s.reg.hl data2 }
    .ok (set_hcnz false false false (data2 == 0) s2, .Next 2 4)
  else
    match read_from_r8 r s.reg with
    | none => .error .invalidRegister
    | some data =>
        let data2 := ((data &&& 0x0F) <<< 4) ||| ((data &&& 0xF0) >>> 4)
        match write_to_r8 r data2 s.reg with
        | some reg =>
            .ok (set_hcnz false false false (data2 == 0) { s with reg := reg }, .Next 2 2)
        | none => .error .invalidRegister

/-- bit_b_r of dmg_cpu.rs: fields from the CB suffix byte via get_n. -/
def bit_b_r (s : Cpu) : Except CpuFault (Cpu × ProgramCounter) :=
  let br_info := get_n s
  let b := (br_info &&& 0x38) >>> 3
  let r := br_info &&& 0x07
  match read_from_r8 r s.reg with
  | none => .error .invalidRegister
  | some val =>
      let v := (val >>> b) &&& 0x01
      .ok (set_hnz true false (v == 0) s, .Next 2 2)

/-- bit_b_hl of dmg_cpu.rs. -/
def bit_b_hl (s : Cpu) : Except CpuFault (Cpu × ProgramCounter) :=
  let b_info := get_n s
  let b := (b_info &&& 0x38) >>> 3
  let val := s.interconnect.read s.reg.hl
  let v := (val >>> b) &&& 0x01
  .ok (set_hnz true false (v == 0) s, .Next 2 3)

/-- set_b_r of dmg_cpu.rs: fields read via get_nn; its low byte is the CB
suffix, so b and r end up the same bits as in bit_b_r. -/
def set_b_r (s : Cpu) : Except CpuFault (Cpu × ProgramCounter) :=
  let br_info := get_nn s
  let b := (br_info &&& 0x38) >>> 3
  let r := br_info &&& 0x07
  match read_from_r8 r s.reg with
  | none => .error .invalidRegister
  | some val =>
      let v := val ||| ((0x01 <<< b) % 256)
      match write_to_r8 r v s.reg with
      | some reg => .ok ({ s with reg := reg }, .Next 2 2)
      | none => .error .invalidRegister

/-- set_b_hl of dmg_cpu.rs. -/
def set_b_hl (s : Cpu) : Except CpuFault (Cpu × ProgramCounter) :=
  let b_info := get_nn s
  let b := (b_info &&& 0x38) >>> 3
  let val := s.interconnect.read s.reg.hl
  let v := val ||| ((0x01 <<< b) % 256)
  .ok ({ s with interconnect := s.interconnect.write s.reg.hl v }, .Next 2 4)

/-- res_b_r of dmg_cpu.rs: clears bit b; the u8 complement of (1 << b) is
its xor with 0xFF. -/
def res_b_r (s : Cpu) : Except CpuFault (Cpu × ProgramCounter) :=
  let br_info := get_nn s
  let b := (br_info &&& 0x38) >>> 3
  let r := br_info &&& 0x07
  match read_from_r8 r s.reg with
  | none => .error .invalidRegister
  | some val =>
      let v := val &&& (0xFF ^^^ ((0x01 <<< b) % 256))
      match write_to_r8 r v s.reg with
      | some reg => .ok ({ s with reg := reg }, .Next 2 2)
      | none => .error .invalidRegister

/-- res_b_hl of dmg_cpu.rs. -/
def res_b_hl (s : Cpu) : Except CpuFault (Cpu × ProgramCounter) :=
  let b_info := get_nn s
  let b := (b_info &&& 0x38) >>> 3
  let val := s.interconnect.read s.reg.hl
  let v := val &&& (0xFF ^^^ ((0x01 <<< b) % 256))
  .ok ({ s with interconnect := s.interconnect.write s.reg.hl v }, .Next 2 4)

/-- jp_nn of dmg_cpu.rs. -/
def jp_nn (s : Cpu) : Except CpuFault (Cpu × ProgramCounter) :=
  .ok (s, .Jump (get_nn s) 4)

/-- jp_hl of dmg_cpu.rs. -/
def jp_hl (s : Cpu) : Except CpuFault (Cpu × ProgramCounter) :=
  .ok (s, .Jump (s.reg.hl % 65536) 1)

/-- jp_cc_nn of dmg_cpu.rs. -/
def jp_cc_nn (s : Cpu) : Except CpuFault (Cpu × ProgramCounter) :=
  let abs_addr := get_nn s
  match check_cc s with
  | none => .error .invalidCC
  | some cc => .ok (s, if cc then .Jump abs_addr 4 else .Next 3 3)

/-- jr_e of dmg_cpu.rs: relative jump by the sign-extended operand plus 2. -/
def jr_e (s : Cpu) : Except CpuFault (Cpu × ProgramCounter) :=
  let e := toI8 (get_n s)
  .ok (s, .Next (e + 2) 3)

/-- jr_cc_e of dmg_cpu.rs. -/
def jr_cc_e (s : Cpu) : Except CpuFault (Cpu × ProgramCounter) :=
  let e := toI8 (get_n s)
  match check_cc s with
  | none => .error .invalidCC
  | some cc => .ok (s, if cc then .Next (e + 2) 3 else .Next 2 2)

/-- call_nn of dmg_cpu.rs: pushes PC+3 then jumps. -/
def call_nn (s : Cpu) : Except CpuFault (Cpu × ProgramCounter) :=
  let nn := get_nn s
  let s2 := push_u16 ((s.reg.pc + 3) % 65536) s
  .ok (s2, .Jump nn 6)

/-- call_cc_nn of dmg_cpu.rs. -/
def call_cc_nn (s : Cpu) : Except CpuFault (Cpu × ProgramCounter) :=
  let nn := get_nn s
  match check_cc s with
  | none => .error .invalidCC
  | some cc =>
      if cc then .ok (push_u16 ((s.reg.pc + 3) % 65536) s, .Jump nn 6)
      else .ok (s, .Next 3 3)

/-- ret of dmg_cpu.rs. -/
def ret (s : Cpu) : Except CpuFault (Cpu × ProgramCounter) :=
  let sv := pop_u16 s
  .ok (sv.1, .Jump sv.2 4)

/-- ret_cc of dmg_cpu.rs. -/
def ret_cc (s : Cpu) : Except CpuFault (Cpu × ProgramCounter) :=
  match check_cc s with
  | none => .error .invalidCC
  | some cc =>
      if cc then
        let sv := pop_u16 s
        .ok (sv.1, .Jump sv.2 5)
      else .ok (s, .Next 1 2)

/-- reti of dmg_cpu.rs: ret plus IME := true. -/
def reti (s : Cpu) : Except CpuFault (Cpu × ProgramCounter) :=
  let sv := pop_u16 s
  .ok ({ sv.1 with reg := { sv.1.reg with ime := true } }, .Jump sv.2 4)

/-- rst_n of dmg_cpu.rs: pushes PC+1, then jumps to a fixed low address
selected by bits 5..3; the unmatched arm models the (unreachable) panic. -/
def rst_n (s : Cpu) : Except CpuFault (Cpu × ProgramCounter) :=
  let s2 := push_u16 ((s.reg.pc + 1) % 65536) s
  let xxx := get_r8_to s2
  if xxx = 0 then .ok (s2, .Jump 0x00 4)
  else if xxx = 1 then .ok (s2, .Jump 0x08 4)
  else if xxx = 2 then .ok (s2, .Jump 0x10 4)
  else if xxx = 3 then .ok (s2, .Jump 0x18 4)
  else if xxx = 4 then .ok (s2, .Jump 0x20 4)
  else if xxx = 5 then .ok (s2, .Jump 0x28 4)
  else if xxx = 6 then .ok (s2, .Jump 0x30 4)
  else if xxx = 7 then .ok (s2, .Jump 0x38 4)
  else .error .invalidRst

/-- halt of dmg_cpu.rs: sets halt_mode.  No decoder arm dispatches to this
handler (opcode 0x76 falls into the ld_addr_hl_r arm), so it is dead code
in the source; it is embedded for reference. -/
def halt (s : Cpu) : Except CpuFault (Cpu × ProgramCounter) :=
  .ok ({ s with halt_mode := true }, .Next 1 0)

/-- stop of dmg_cpu.rs. -/
def stop (s : Cpu) : Except CpuFault (Cpu × ProgramCounter) :=
  .ok ({ s with stop_mode := true }, .Next 1 0)

/-- di of dmg_cpu.rs: clears IME immediately. -/
def di (s : Cpu) : Except CpuFault (Cpu × ProgramCounter) :=
  .ok ({ s with reg := { s.reg with ime := false } }, .Next 1 1)

/-- ei of dmg_cpu.rs: the body assigns IME := true immediately (there is no
deferred flag in the source, despite its doc comment). -/
def ei (s : Cpu) : Except CpuFault (Cpu × ProgramCounter) :=
  .ok ({ s with reg := { s.reg with ime := true } }, .Next 1 1)

/-- ccf of dmg_cpu.rs. -/
def ccf (s : Cpu) : Except CpuFault (Cpu × ProgramCounter) :=
  let c_bit := s.reg.f &&& CF
  .ok (set_hcn false (c_bit == 0) false s, .Next 1 1)

/-- scf of dmg_cpu.rs. -/
def scf (s : Cpu) : Except CpuFault (Cpu × ProgramCounter) :=
  .ok (set_hcn false true false s, .Next 1 1)

/-- nop of dmg_cpu.rs. -/
def nop (s : Cpu) : Except CpuFault (Cpu × ProgramCounter) :=
  .ok (s, .Next 1 1)

/-- daa of dmg_cpu.rs: its particular adjustment (note the a > 0x90 test and
the unconditional has_carry=false on the subtraction path, exactly as in the
source). -/
def daa (s : Cpu) : Except CpuFault (Cpu × ProgramCounter) :=
  match read_from_r8 A_ID s.reg with
  | none => .error .invalidRegister
  | some a0 =>
      let is_addition := s.reg.f &&& NF == 0
      let c_flag := s.reg.f &&& CF > 0
      let h_flag := s.reg.f &&& HF > 0
      let n_flag := s.reg.f &&& NF > 0
      let p :=
        if is_addition then
          let q := if decide (a0 > 0x90) || decide c_flag then ((a0 + 0x60) % 256, true)
                   else (a0, false)
          let a2 := if decide (q.1 &&& 0x0F > 0x09) || decide h_flag then (q.1 + 0x06) % 256
                    else q.1
          (a2, q.2)
        else
          let a1 := if c_flag then wrapping_sub8 a0 0x60 else a0
          let a2 := if h_flag then wrapping_sub8 a1 0x06 else a1
          (a2, false)
      match write_to_r8 A_ID p.1 s.reg with
      | some reg =>
          .ok (set_hcnz p.2 false (decide n_flag) (p.1 == 0) { s with reg := reg }, .Next 1 1)
      | none => .error .invalidRegister

/-- cpl of dmg_cpu.rs: flips the 8 bits of A one by one in a loop. -/
def cpl (s : Cpu) : Except CpuFault (Cpu × ProgramCounter) :=
  match read_from_r8 A_ID s.reg with
  | none => .error .invalidRegister
  | some a0 =>
      let a := (List.range 8).foldl (fun acc k => acc ^^^ ((0x01 <<< k) % 256)) a0
      match write_to_r8 A_ID a s.reg with
      | some reg =>
          let s2 := { s with reg := reg }
          .ok (set_hnz true true (s2.reg.f &&& ZF > 0) s2, .Next 1 1)
      | none => .error .invalidRegister

/-- The dispatch targets of the primary opcode match in execute_opcode of
dmg_cpu.rs, one constructor per handler arm plus the fall-through panic. -/
inductive Instr where
  | i_ld_addr_hl_n | i_ld_a_addr_bc | i_ld_a_addr_de | i_ld_addr_bc_a
  | i_ld_addr_de_a | i_ld_a_addr_hl_dec | i_ld_addr_hl_a_dec
  | i_ld_a_addr_hl_inc | i_ld_addr_hl_a_inc | i_ld_addr_nn_sp | i_jr_e
  | i_ccf | i_scf | i_nop | i_daa | i_cpl | i_inc_hl | i_dec_hl
  | i_rlca | i_rla | i_rrca | i_rra | i_stop
  | i_inc_ss | i_dec_ss | i_add_hlss | i_ld_rr_nn | i_jr_cc_e
  | i_ld_r_n | i_dec_r | i_inc_r
  | i_ld_addr_hl_r | i_ld_r_addr_hl | i_ld_rx_ry
  | i_add_ahl | i_adc_ahl | i_sub_hl | i_sbc_ahl | i_and_hl | i_or_hl
  | i_xor_hl | i_cp_hl
  | i_add_ar | i_adc_ar | i_sub_r | i_sbc_ar | i_and_r | i_or_r
  | i_xor_r | i_cp_r
  | i_ld_a_addr_nn | i_ld_addr_nn_a | i_ldh_a_addr_offset_c
  | i_ldh_addr_offset_c_a | i_ldh_a_addr_offset_n | i_ldh_addr_offset_n_a
  | i_ld_sp_hl
  | i_add_an | i_adc_an | i_sub_n | i_sbc_an | i_and_n | i_or_n
  | i_xor_n | i_cp_n
  | i_add_spe | i_jp_nn | i_jp_hl | i_call_nn | i_ret | i_reti
  | i_di | i_ei | i_cb | i_ld_hl_sp_e
  | i_push_rr | i_pop_rr | i_jp_cc_nn | i_call_cc_nn | i_ret_cc | i_rst_n
  | i_undefined
deriving DecidableEq

/-- The dispatch targets of the CB-suffix match in execute_bc of
dmg_cpu.rs. -/
inductive CBInstr where
  | i_rlc | i_rl | i_rrc | i_rr | i_sla | i_sra | i_srl | i_swap
  | i_bit_b_hl | i_bit_b_r | i_res_b_hl | i_res_b_r | i_set_b_hl | i_set_b_r
  | i_undefined
deriving DecidableEq

/-- The primary opcode match of execute_opcode in dmg_cpu.rs, arm for arm
and in the same order, over the quintuple
(bits 7..6, bits 5..3, bits 2..0, is_aa0, is_0bb). -/
def decode (opcode : Nat) : Instr :=
  let is_aa0 : Bool := opcode &&& 0b00001000 == 0
  let is_0bb : Bool := opcode &&& 0b00100000 == 0
  match opcode >>> 6, (opcode &&& 0b00111000) >>> 3, opcode &&& 0b00000111,
        is_aa0, is_0bb with
  | 0b00, 0b110, 0b110, _, _ => .i_ld_addr_hl_n
  | 0b00, 0b001, 0b010, _, _ => .i_ld_a_addr_bc
  | 0b00, 0b011, 0b010, _, _ => .i_ld_a_addr_de
  | 0b00, 0b000, 0b010, _, _ => .i_ld_addr_bc_a
  | 0b00, 0b010, 0b010, _, _ => .i_ld_addr_de_a
  | 0b00, 0b111, 0b010, _, _ => .i_ld_a_addr_hl_dec
  | 0b00, 0b110, 0b010, _, _ => .i_ld_addr_hl_a_dec
  | 0b00, 0b101, 0b010, _, _ => .i_ld_a_addr_hl_inc
  | 0b00, 0b100, 0b010, _, _ => .i_ld_addr_hl_a_inc
  | 0b00, 0b001, 0b000, _, _ => .i_ld_addr_nn_sp
  | 0b00, 0b011, 0b000, _, _ => .i_jr_e
  | 0b00, 0b111, 0b111, _, _ => .i_ccf
  | 0b00, 0b110, 0b111, _, _ => .i_scf
  | 0b00, 0b000, 0b000, _, _ => .i_nop
  | 0b00, 0b100, 0b111, _, _ => .i_daa
  | 0b00, 0b101, 0b111, _, _ => .i_cpl
  | 0b00, 0b110, 0b100, _, _ => .i_inc_hl
  | 0b00, 0b110, 0b101, _, _ => .i_dec_hl
  | 0b00, 0b000, 0b111, _, _ => .i_rlca
  | 0b00, 0b010, 0b111, _, _ => .i_rla
  | 0b00, 0b001, 0b111, _, _ => .i_rrca
  | 0b00, 0b011, 0b111, _, _ => .i_rra
  | 0b00, 0b010, 0b000, _, _ => .i_stop
  | 0b00, _, 0b011, true, _ => .i_inc_ss
  | 0b00, _, 0b011, false, _ => .i_dec_ss
  | 0b00, _, 0b001, false, _ => .i_add_hlss
  | 0b00, _, 0b001, true, _ => .i_ld_rr_nn
  | 0b00, _, 0b000, _, false => .i_jr_cc_e
  | 0b00, _, 0b110, _, _ => .i_ld_r_n
  | 0b00, _, 0b101, _, _ => .i_dec_r
  | 0b00, _, 0b100, _, _ => .i_inc_r
  | 0b01, 0b110, _, _, _ => .i_ld_addr_hl_r
  | 0b01, _, 0b110, _, _ => .i_ld_r_addr_hl
  | 0b01, _, _, _, _ => .i_ld_rx_ry
  | 0b10, 0b000, 0b110, _, _ => .i_add_ahl
  | 0b10, 0b001, 0b110, _, _ => .i_adc_ahl
  | 0b10, 0b010, 0b110, _, _ => .i_sub_hl
  | 0b10, 0b011, 0b110, _, _ => .i_sbc_ahl
  | 0b10, 0b100, 0b110, _, _ => .i_and_hl
  | 0b10, 0b110, 0b110, _, _ => .i_or_hl
  | 0b10, 0b101, 0b110, _, _ => .i_xor_hl
  | 0b10, 0b111, 0b110, _, _ => .i_cp_hl
  | 0b10, 0b000, _, _, _ => .i_add_ar
  | 0b10, 0b001, _, _, _ => .i_adc_ar
  | 0b10, 0b010, _, _, _ => .i_sub_r
  | 0b10, 0b011, _, _, _ => .i_sbc_ar
  | 0b10, 0b100, _, _, _ => .i_and_r
  | 0b10, 0b110, _, _, _ => .i_or_r
  | 0b10, 0b101, _, _, _ => .i_xor_r
  | 0b10, 0b111, _, _, _ => .i_cp_r
  | 0b11, 0b111, 0b010, _, _ => .i_ld_a_addr_nn
  | 0b11, 0b101, 0b010, _, _ => .i_ld_addr_nn_a
  | 0b11, 0b110, 0b010, _, _ => .i_ldh_a_addr_offset_c
  | 0b11, 0b100, 0b010, _, _ => .i_ldh_addr_offset_c_a
  | 0b11, 0b110, 0b000, _, _ => .i_ldh_a_addr_offset_n
  | 0b11, 0b100, 0b000, _, _ => .i_ldh_addr_offset_n_a
  | 0b11, 0b111, 0b001, _, _ => .i_ld_sp_hl
  | 0b11, 0b000, 0b110, _, _ => .i_add_an
  | 0b11, 0b001, 0b110, _, _ => .i_adc_an
  | 0b11, 0b010, 0b110, _, _ => .i_sub_n
  | 0b11, 0b011, 0b110, _, _ => .i_sbc_an
  | 0b11, 0b100, 0b110, _, _ => .i_and_n
  | 0b11, 0b110, 0b110, _, _ => .i_or_n
  | 0b11, 0b101, 0b110, _, _ => .i_xor_n
  | 0b11, 0b111, 0b110, _, _ => .i_cp_n
  | 0b11, 0b101, 0b000, _, _ => .i_add_spe
  | 0b11, 0b000, 0b011, _, _ => .i_jp_nn
  | 0b11, 0b101, 0b001, _, _ => .i_jp_hl
  | 0b11, 0b001, 0b101, _, _ => .i_call_nn
  | 0b11, 0b001, 0b001, _, _ => .i_ret
  | 0b11, 0b011, 0b001, _, _ => .i_reti
  | 0b11, 0b110, 0b011, _, _ => .i_di
  | 0b11, 0b111, 0b011, _, _ => .i_ei
  | 0b11, 0b001, 0b011, _, _ => .i_cb
  | 0b11, 0b111, 0b000, _, _ => .i_ld_hl_sp_e
  | 0b11, _, 0b101, true, _ => .i_push_rr
  | 0b11, _, 0b001, true, _ => .i_pop_rr
  | 0b11, _, 0b010, _, true => .i_jp_cc_nn
  | 0b11, _, 0b100, _, true => .i_call_cc_nn
  | 0b11, _, 0b000, _, true => .i_ret_cc
  | 0b11, _, 0b111, _, _ => .i_rst_n
  | _, _, _, _, _ => .i_undefined

/-- The CB-suffix match of execute_bc in dmg_cpu.rs, arm for arm and in the
same order. -/
def decodeCB (suffix : Nat) : CBInstr :=
  match suffix >>> 6, (suffix &&& 0b00111000) >>> 3, suffix &&& 0b00000111 with
  | 0b00, 0b000, _ => .i_rlc
  | 0b00, 0b010, _ => .i_rl
  | 0b00, 0b001, _ => .i_rrc
  | 0b00, 0b011, _ => .i_rr
  | 0b00, 0b100, _ => .i_sla
  | 0b00, 0b101, _ => .i_sra
  | 0b00, 0b111, _ => .i_srl
  | 0b00, 0b110, _ => .i_swap
  | 0b01, _, 0b110 => .i_bit_b_hl
  | 0b01, _, _ => .i_bit_b_r
  | 0b10, _, 0b110 => .i_res_b_hl
  | 0b10, _, _ => .i_res_b_r
  | 0b11, _, 0b110 => .i_set_b_hl
  | 0b11, _, _ => .i_set_b_r
  | _, _, _ => .i_undefined

/-- execute_bc of dmg_cpu.rs: reads the suffix at pc_current + 1 and
dispatches; the fall-through arm is the panic. -/
def execute_bc (s : Cpu) (pc_current : Nat) : Except CpuFault (Cpu × ProgramCounter) :=
  let suffix := s.interconnect.read (pc_current + 1)
  match decodeCB suffix with
  | .i_rlc => rlc s
  | .i_rl => rl s
  | .i_rrc => rrc s
  | .i_rr => rr s
  | .i_sla => sla s
  | .i_sra => sra s
  | .i_srl => srl s
  | .i_swap => swap s
  | .i_bit_b_hl => bit_b_hl s
  | .i_bit_b_r => bit_b_r s
  | .i_res_b_hl => res_b_hl s
  | .i_res_b_r => res_b_r s
  | .i_set_b_hl => set_b_hl s
  | .i_set_b_r => set_b_r s
  | .i_undefined => .error .undefinedCB

/-- Dispatch of one decoded primary opcode to its handler, the body of the
big match in execute_opcode of dmg_cpu.rs. -/
def runOp (i : Instr) (s : Cpu) : Except CpuFault (Cpu × ProgramCounter) :=
  match i with
  | .i_ld_addr_hl_n => ld_addr_hl_n s
  | .i_ld_a_addr_bc => ld_a_addr_bc s
  | .i_ld_a_addr_de => ld_a_addr_de s
  | .i_ld_addr_bc_a => ld_addr_bc_a s
  | .i_ld_addr_de_a => ld_addr_de_a s
  | .i_ld_a_addr_hl_dec => ld_a_addr_hl_dec s
  | .i_ld_addr_hl_a_dec => ld_addr_hl_a_dec s
  | .i_ld_a_addr_hl_inc => ld_a_addr_hl_inc s
  | .i_ld_addr_hl_a_inc => ld_addr_hl_a_inc s
  | .i_ld_addr_nn_sp => ld_addr_nn_sp s
  | .i_jr_e => jr_e s
  | .i_ccf => ccf s
  | .i_scf => scf s
  | .i_nop => nop s
  | .i_daa => daa s
  | .i_cpl => cpl s
  | .i_inc_hl => inc_hl s
  | .i_dec_hl => dec_hl s
  | .i_rlca => rlca s
  | .i_rla => rla s
  | .i_rrca => rrca s
  | .i_rra => rra s
  | .i_stop => stop s
  | .i_inc_ss => inc_ss s
  | .i_dec_ss => dec_ss s
  | .i_add_hlss => add_hlss s
  | .i_ld_rr_nn => ld_rr_nn s
  | .i_jr_cc_e => jr_cc_e s
  | .i_ld_r_n => ld_r_n s
  | .i_dec_r => dec_r s
  | .i_inc_r => inc_r s
  | .i_ld_addr_hl_r => ld_addr_hl_r s
  | .i_ld_r_addr_hl => ld_r_addr_hl s
  | .i_ld_rx_ry => ld_rx_ry s
  | .i_add_ahl => add_ahl s
  | .i_adc_ahl => adc_ahl s
  | .i_sub_hl => sub_hl s
  | .i_sbc_ahl => sbc_ahl s
  | .i_and_hl => and_hl s
  | .i_or_hl => or_hl s
  | .i_xor_hl => xor_hl s
  | .i_cp_hl => cp_hl s
  | .i_add_ar => add_ar s
  | .i_adc_ar => adc_ar s
  | .i_sub_r => sub_r s
  | .i_sbc_ar => sbc_ar s
  | .i_and_r => and_r s
  | .i_or_r => or_r s
  | .i_xor_r => xor_r s
  | .i_cp_r => cp_r s
  | .i_ld_a_addr_nn => ld_a_addr_nn s
  | .i_ld_addr_nn_a => ld_addr_nn_a s
  | .i_ldh_a_addr_offset_c => ldh_a_addr_offset_c s
  | .i_ldh_addr_offset_c_a => ldh_addr_offset_c_a s
  | .i_ldh_a_addr_offset_n => ldh_a_addr_offset_n s
  | .i_ldh_addr_offset_n_a => ldh_addr_offset_n_a s
  | .i_ld_sp_hl => ld_sp_hl s
  | .i_add_an => add_an s
  | .i_adc_an => adc_an s
  | .i_sub_n => sub_n s
  | .i_sbc_an => sbc_an s
  | .i_and_n => and_n s
  | .i_or_n => or_n s
  | .i_xor_n => xor_n s
  | .i_cp_n => cp_n s
  | .i_add_spe => add_spe s
  | .i_jp_nn => jp_nn s
  | .i_jp_hl => jp_hl s
  | .i_call_nn => call_nn s
  | .i_ret => ret s
  | .i_reti => reti s
  | .i_di => di s
  | .i_ei => ei s
  | .i_cb => execute_bc s s.reg.pc
  | .i_ld_hl_sp_e => ld_hl_sp_e s
  | .i_push_rr => push_rr s
  | .i_pop_rr => pop_rr s
  | .i_jp_cc_nn => jp_cc_nn s
  | .i_call_cc_nn => call_cc_nn s
  | .i_ret_cc => ret_cc s
  | .i_rst_n => rst_n s
  | .i_undefined => .error .undefinedOpcode

/-- The PC bookkeeping at the end of execute_opcode in dmg_cpu.rs: Next
advances PC by a signed byte count (u16 wrap), Jump sets it. -/
def apply_pc_update (s : Cpu) (u : ProgramCounter) : Cpu × Nat :=
  match u with
  | .Next bytes cycles =>
      ({ s with reg := { s.reg with pc := (((s.reg.pc % 65536 : Nat) : Int) + bytes).emod 65536 |>.toNat } },
       cycles)
  | .Jump addr cycles =>
      ({ s with reg := { s.reg with pc := addr % 65536 } }, cycles)

/-- execute_opcode of dmg_cpu.rs: fetch at PC, decode, run the handler,
apply the PC update, return the cycle count. -/
def execute_opcode (s : Cpu) : Except CpuFault (Cpu × Nat) :=
  let opcode := s.interconnect.read s.reg.pc
  match runOp (decode opcode) s with
  | .ok su => .ok (apply_pc_update su.1 su.2)
  | .error e => .error e

/-- u8::trailing_zeros as used on all_ints in handle_interrupt. -/
def trailing_zeros8 (n : Nat) : Nat :=
  if n &&& 0x01 ≠ 0 then 0
  else if n &&& 0x02 ≠ 0 then 1
  else if n &&& 0x04 ≠ 0 then 2
  else if n &&& 0x08 ≠ 0 then 3
  else if n &&& 0x10 ≠ 0 then 4
  else if n &&& 0x20 ≠ 0 then 5
  else if n &&& 0x40 ≠ 0 then 6
  else if n &&& 0x80 ≠ 0 then 7
  else 8

/-- handle_interrupt of dmg_cpu.rs: all_ints = IF & IE (no 0x1F mask in the
source); halt_mode is cleared when any interrupt is pending; dispatch picks
the lowest set bit, masks IF with 0xFF << (bit+1) (u8 shift), clears IME,
pushes PC via push_u16 and jumps to the vector, charging 20; the error
models the panic on a bit index above 4. -/
def handle_interrupt (s : Cpu) : Except CpuFault (Cpu × Nat) :=
  let all_ints := (s.interconnect.int_flags % 256) &&& (s.interconnect.int_enable % 256)
  let s := if s.halt_mode then { s with halt_mode := all_ints == 0 } else s
  if !s.reg.ime || all_ints == 0 then .ok (s, 0)
  else
    let interrupt_bit := trailing_zeros8 all_ints
    let int_hw : Option Nat :=
      if interrupt_bit = 0 then some 0x40
      else if interrupt_bit = 1 then some 0x48
      else if interrupt_bit = 2 then some 0x50
      else if interrupt_bit = 3 then some 0x58
      else if interrupt_bit = 4 then some 0x60
      else none
    match int_hw with
    | none => .error .invalidInterrupt
    | some vec =>
        let s := { s with interconnect :=
          { s.interconnect with int_flags :=
              (s.interconnect.int_flags % 256) &&& ((0xFF <<< (interrupt_bit + 1)) % 256) } }
        let s := { s with reg := { s.reg with ime := false } }
        let pc := s.reg.pc
        let s := push_u16 pc s
        let s := { s with reg := { s.reg with pc := vec } }
        .ok (s, 20)

/-- step of dmg_cpu.rs: execute one opcode, then handle_interrupt, sum the
cycles; cycle_flush only advances peripherals (outside this state) and is
the identity here. -/
def step (s : Cpu) : Except CpuFault (Cpu × Nat) :=
  match execute_opcode s with
  | .error e => .error e
  | .ok sc =>
      match handle_interrupt sc.1 with
      | .error e => .error e
      | .ok sc2 => .ok (sc2.1, sc.2 + sc2.2)

/-- Decidable observation of a CPU outcome: the externally meaningful
registers, mode bits, IF byte and the returned cycle count. -/
structure Obs where
  a : Nat
  f : Nat
  pc : Nat
  sp : Nat
  ime : Bool
  halt : Bool
  intf : Nat
  cycles : Nat
deriving DecidableEq

/-- Projection of an execution result onto Obs; none on a fault. -/
def observe (r : Except CpuFault (Cpu × Nat)) : Option Obs :=
  match r with
  | .ok sc =>
      some { a := sc.1.reg.a % 256, f := sc.1.reg.f % 256, pc := sc.1.reg.pc % 65536,
             sp := sc.1.reg.sp % 65536, ime := sc.1.reg.ime, halt := sc.1.halt_mode,
             intf := sc.1.interconnect.int_flags % 256, cycles := sc.2 }
  | .error _ => none

/-- Byte visible on the bus at an address after an execution result. -/
def memAt (r : Except CpuFault (Cpu × Nat)) (addr : Nat) : Option Nat :=
  match r with
  | .ok sc => some (sc.1.interconnect.read addr)
  | .error _ => none

/-- Byte in the private stack array at an address after an execution
result. -/
def stackAt (r : Except CpuFault (Cpu × Nat)) (addr : Nat) : Option Nat :=
  match r with
  | .ok sc => some (sc.1.stack (addr % 65536) % 256)
  | .error _ => none

/-- An all-zero byte store. -/
def zeroFn : Nat → Nat := fun _ => 0

/-- The power-on register file of Registers::new in dmg_cpu.rs. -/
def baseRegs : Registers :=
  { a := 0x01, b := 0x00, c := 0x13, d := 0x00, e := 0xD8, h := 0x01, l := 0x4D,
    bc := 0x0013, de := 0x00D8, hl := 0x014D, f := 0xB0, sp := 0xFFFE, pc := 0x0100,
    ime := true }

/-- A CPU in the power-on state of Cpu::new over a zeroed bus. -/
def baseCpu : Cpu :=
  { reg := baseRegs, stack := zeroFn, halt_mode := false, stop_mode := false,
    interconnect := { mem := zeroFn, int_flags := 0, int_enable := 0 } }

/-- State for C1: IME=1, IF=0x03, IE=0x02, PC=0x1234, SP=0xFFFE. -/
def c1State : Cpu :=
  { baseCpu with
    reg := { baseRegs with pc := 0x1234 },
    interconnect := { mem := zeroFn, int_flags := 0x03, int_enable := 0x02 } }

/-- State for C2: PUSH BC (opcode 0xC5) at PC=0x0100, BC=0x1234,
SP=0xFFFE, all bus memory zero. -/
def c2State : Cpu :=
  { baseCpu with
    reg := { baseRegs with b := 0x12, c := 0x34, bc := 0x1234 },
    interconnect := { mem := fun x => if x = 0x0100 then 0xC5 else 0,
                      int_flags := 0, int_enable := 0 } }

/-- State for C3: opcode 0x76 at PC=0x0100, HL=0x014D, zeroed bus. -/
def c3State : Cpu :=
  { baseCpu with
    interconnect := { mem := fun x => if x = 0x0100 then 0x76 else 0,
                      int_flags := 0, int_enable := 0 } }

/-- State for C5 (scenario S1): A=0x3A, B=0xC6, F=0, opcode 0x80 at
PC=0x0100, no pending interrupt. -/
def c5State : Cpu :=
  { baseCpu with
    reg := { baseRegs with a := 0x3A, b := 0xC6, bc := 0xC613, f := 0 },
    interconnect := { mem := fun x => if x = 0x0100 then 0x80 else 0,
                      int_flags := 0, int_enable := 0 } }

/-- State for C6: EI (opcode 0xFB) at PC=0x0200 with IME=0 and an already
pending, enabled VBlank interrupt (IF=IE=0x01). -/
def c6State : Cpu :=
  { baseCpu with
    reg := { baseRegs with pc := 0x0200, ime := false },
    interconnect := { mem := fun x => if x = 0x0200 then 0xFB else 0,
                      int_flags := 0x01, int_enable := 0x01 } }

/-- State for C7: ADD SP,e (opcode 0xE8) with operand 0xFF (-1) and SP=0. -/
def c7State : Cpu :=
  { baseCpu with
    reg := { baseRegs with sp := 0x0000 },
    interconnect := { mem := fun x => if x = 0x0100 then 0xE8
                                      else if x = 0x0101 then 0xFF else 0,
                      int_flags := 0, int_enable := 0 } }

/-- State for C8: RLCA (opcode 0x07) with A=0 and F=0. -/
def c8State : Cpu :=
  { baseCpu with
    reg := { baseRegs with a := 0x00, f := 0x00 },
    interconnect := { mem := fun x => if x = 0x0100 then 0x07 else 0,
                      int_flags := 0, int_enable := 0 } }

/-- State for C9: POP AF (opcode 0xF1) with SP=0xFFFC and stack bytes
0xFF at 0xFFFC (low) and 0x12 at 0xFFFD (high). -/
def c9State : Cpu :=
  { baseCpu with
    reg := { baseRegs with sp := 0xFFFC },
    stack := fun x => if x = 0xFFFC then 0xFF else if x = 0xFFFD then 0x12 else 0,
    interconnect := { mem := fun x => if x = 0x0100 then 0xF1 else 0,
                      int_flags := 0, int_enable := 0 } }

/-- The register-field side conditions the decoder guarantees for each
register-operand handler: whenever the decoder selects one of these
handlers, the corresponding 3-bit register field of the opcode is not
0b110 (such encodings were routed to the (HL) memory handlers first). -/
def c10DecodeOk (op : Nat) : Prop :=
  (decode op = .i_ld_rx_ry → ((op &&& 0b00111000) >>> 3 ≠ 6 ∧ op &&& 0b00000111 ≠ 6))
  ∧ (decode op = .i_ld_r_n → (op &&& 0b00111000) >>> 3 ≠ 6)
  ∧ (decode op = .i_ld_r_addr_hl → (op &&& 0b00111000) >>> 3 ≠ 6)
  ∧ (decode op = .i_inc_r → (op &&& 0b00111000) >>> 3 ≠ 6)
  ∧ (decode op = .i_dec_r → (op &&& 0b00111000) >>> 3 ≠ 6)
  ∧ (decode op = .i_add_ar → op &&& 0b00000111 ≠ 6)
  ∧ (decode op = .i_adc_ar → op &&& 0b00000111 ≠ 6)
  ∧ (decode op = .i_sub_r → op &&& 0b00000111 ≠ 6)
  ∧ (decode op = .i_sbc_ar → op &&& 0b00000111 ≠ 6)
  ∧ (decode op = .i_and_r → op &&& 0b00000111 ≠ 6)
  ∧ (decode op = .i_or_r → op &&& 0b00000111 ≠ 6)
  ∧ (decode op = .i_xor_r → op &&& 0b00000111 ≠ 6)
  ∧ (decode op = .i_cp_r → op &&& 0b00000111 ≠ 6)

instance c10DecodeOkDecidable (op : Nat) : Decidable (c10DecodeOk op) := by
  unfold c10DecodeOk
  infer_instance

/-- Same side conditions for the CB suffix: the register forms of
BIT/RES/SET are only selected with a register field other than 0b110. -/
def c10DecodeCBOk (sfx : Nat) : Prop :=
  (decodeCB sfx = .i_bit_b_r → sfx &&& 0b00000111 ≠ 6)
  ∧ (decodeCB sfx = .i_res_b_r → sfx &&& 0b00000111 ≠ 6)
  ∧ (decodeCB sfx = .i_set_b_r → sfx &&& 0b00000111 ≠ 6)

instance c10DecodeCBOkDecidable (sfx : Nat) : Decidable (c10DecodeCBOk sfx) := by
  unfold c10DecodeCBOk
  infer_instance

/-- C1: with IF = 0x03 and IE = 0x02, the lowest pending enabled bit is
k = 1, so the claim requires IF to become 0x01 (only bit 1 cleared).
handle_interrupt instead masks IF with 0xFF << (k+1) = 0xFC and also clears
bit 0: IF becomes 0x00.  The rest of the dispatch (IME cleared, PC = 0x48,
SP decremented by 2, 20 cycles) does happen. -/
theorem c1_handle_interrupt_clears_low_bits :
    observe (handle_interrupt c1State) =
      some { a := 0x01, f := 0xB0, pc := 0x48, sp := 0xFFFC, ime := false,
             halt := false, intf := 0x00, cycles := 20 } ∧
    (0x00 : Nat) ≠ 0x03 &&& (0xFF ^^^ (1 <<< 1)) := by
  constructor
  · decide
  · decide

/-- C2: after PUSH BC with BC = 0x1234 and SP = 0xFFFE the claim requires
the bus bytes at 0xFFFD / 0xFFFC to read 0x12 / 0x34.  push_u16 writes the
PRIVATE stack array instead and leaves the bus untouched: the bus still
reads 0 at both addresses while the private array holds the two bytes.
SP is decremented by 2 as claimed. -/
theorem c2_push_bypasses_bus :
    memAt (execute_opcode c2State) 0xFFFD = some 0x00 ∧
    memAt (execute_opcode c2State) 0xFFFC = some 0x00 ∧
    stackAt (execute_opcode c2State) 0xFFFD = some 0x12 ∧
    stackAt (execute_opcode c2State) 0xFFFC = some 0x34 ∧
    (observe (execute_opcode c2State)).map Obs.sp = some 0xFFFC ∧
    (0x00 : Nat) ≠ 0x12 := by
  refine ⟨by decide, by decide, by decide, by decide, by decide, by decide⟩

/-- C3: executing opcode 0x76 does NOT set halt_mode.  The decoder routes
0x76 into the ld_addr_hl_r arm (the 01 110 zzz pattern is matched before
the HALT case, which does not exist in the decoder at all), whose register
field is the invalid id 0b110, so it silently stores nothing; halt_mode
stays false, PC advances by 1 and 2 cycles are charged.  The byte at HL is
untouched (so the second half of the claim holds, but not the first). -/
theorem c3_opcode_76_is_not_halt :
    decode 0x76 = Instr.i_ld_addr_hl_r ∧
    observe (execute_opcode c3State) =
      some { a := 0x01, f := 0xB0, pc := 0x0101, sp := 0xFFFE, ime := true,
             halt := false, intf := 0, cycles := 2 } ∧
    memAt (execute_opcode c3State) 0x014D = some 0 := by
  refine ⟨by decide, by decide, by decide⟩

/-- C5 counterexample: the claim requires step to return 4 cycles
(T-states) for ADD A,B on the S1 state; the code returns 1. -/
theorem c5_cycles_not_four :
    (observe (step c5State)).map Obs.cycles ≠ some 4 := by
  decide

/-- C5 amended: on the S1 state, step yields A=0x00, F=0xB0 (Z,H,C set),
PC advanced by 1, and a returned count of 1 (the code charges machine
cycles for instructions, not T-states). -/
theorem c5_add_carry_scenario :
    observe (step c5State) =
      some { a := 0x00, f := 0xB0, pc := 0x0101, sp := 0xFFFE, ime := true,
             halt := false, intf := 0, cycles := 1 } := by
  decide

/-- C6: ei sets IME immediately and handle_interrupt runs in the same step,
so an interrupt already pending when EI executes is dispatched before the
following instruction runs: one step from c6State lands on the VBlank
vector 0x0040 with IME cleared and IF bit 0 consumed, charging 1+20
cycles.  The claim requires the next instruction (at 0x0201) to run first. -/
theorem c6_ei_has_no_delay :
    observe (step c6State) =
      some { a := 0x01, f := 0xB0, pc := 0x0040, sp := 0xFFFC, ime := false,
             halt := false, intf := 0x00, cycles := 21 } ∧
    (0x0040 : Nat) ≠ 0x0201 := by
  refine ⟨by decide, by decide⟩

/-- C7: for SP = 0x0000 and e = 0xFF (that is -1) the claim requires
SP to become 0xFFFF; add_spe zero-extends the operand instead of
sign-extending it and yields SP = 0x00FF (it also computes H and C with
the 12-bit masks of ADD HL,ss rather than the low-byte formulas). -/
theorem c7_add_spe_not_sign_extended :
    observe (execute_opcode c7State) =
      some { a := 0x01, f := 0x00, pc := 0x0102, sp := 0x00FF, ime := true,
             halt := false, intf := 0, cycles := 4 } ∧
    (0x00FF : Nat) ≠ 0xFFFF := by
  refine ⟨by decide, by decide⟩

/-- C8: RLCA on A = 0 must leave Z = 0 by the claim; rlca goes through
rotate_r8, which sets Z = (result == 0), so F becomes 0x80 (Z set). -/
theorem c8_rlca_sets_z_on_zero :
    observe (execute_opcode c8State) =
      some { a := 0x00, f := 0x80, pc := 0x0101, sp := 0xFFFE, ime := true,
             halt := false, intf := 0, cycles := 1 } ∧
    (0x80 : Nat) &&& ZF ≠ 0 := by
  refine ⟨by decide, by decide⟩

/-- C9: POPping 0x12FF into AF must force the low nibble of F to 0 by the
claim; pp_write_r16 assigns F the raw low byte, so F becomes 0xFF with low
nibble 0xF, and the boundary invariant on F is broken. -/
theorem c9_pop_af_keeps_low_nibble :
    observe (execute_opcode c9State) =
      some { a := 0x12, f := 0xFF, pc := 0x0101, sp := 0xFFFE, ime := true,
             halt := false, intf := 0, cycles := 3 } ∧
    (0xFF : Nat) &&& 0x0F ≠ 0 := by
  refine ⟨by decide, by decide⟩

theorem nat_and_15 (x : Nat) : x &&& 15 = x % 16 := by
  have h := Nat.and_pow_two_sub_one_eq_mod x 4
  norm_num at h
  exact h

theorem nat_and_255 (x : Nat) : x &&& 255 = x % 256 := by
  have h := Nat.and_pow_two_sub_one_eq_mod x 8
  norm_num at h
  exact h

theorem set_hcnz_preserves_a (h c n z : Bool) (s : Cpu) :
    (set_hcnz h c n z s).reg.a = s.reg.a := rfl

theorem read_from_r8_A (r : Registers) :
    read_from_r8 A_ID r = some (r.a % 256) := rfl

theorem cp_r_preserves_a (s : Cpu) (r1 : Cpu × ProgramCounter)
    (hok : cp_r s = .ok r1) : r1.1.reg.a = s.reg.a := by
  unfold cp_r at hok
  simp only [read_from_r8_A] at hok
  rcases h2 : read_from_r8 (get_r8_from s) s.reg with _ | v <;>
    simp only [h2] at hok
  · exact absurd hok (by simp)
  · rw [← Except.ok.inj hok]
    rfl

theorem cp_n_preserves_a (s : Cpu) (r1 : Cpu × ProgramCounter)
    (hok : cp_n s = .ok r1) : r1.1.reg.a = s.reg.a := by
  unfold cp_n at hok
  simp only [read_from_r8_A] at hok
  rw [← Except.ok.inj hok]
  rfl

theorem cp_hl_preserves_a (s : Cpu) (r1 : Cpu × ProgramCounter)
    (hok : cp_hl s = .ok r1) : r1.1.reg.a = s.reg.a := by
  unfold cp_hl at hok
  simp only [read_from_r8_A] at hok
  rw [← Except.ok.inj hok]
  rfl

/-- C4: for every pair of byte operands (and carry input), the result and
the Z/N/H/C flags computed by the shared processing lines of the 8-bit ALU
handlers (add/adc/sub/sbc/and/or/xor, and sub_compute reused by cp) match
the table of section 4.3 of the spec, and the three cp handlers leave A
unchanged. -/
theorem c4_alu_flag_table (a b cf : Nat) (ha : a < 256) (hb : b < 256)
    (hcf : cf < 2) :
    ((add_compute a b).res = (a + b) % 256
      ∧ ((add_compute a b).z = true ↔ (a + b) % 256 = 0)
      ∧ (add_compute a b).n = false
      ∧ ((add_compute a b).h = true ↔ a % 16 + b % 16 > 0xF)
      ∧ ((add_compute a b).c = true ↔ a + b > 0xFF))
    ∧ ((adc_compute a b cf).res = (a + b + cf) % 256
      ∧ ((adc_compute a b cf).z = true ↔ (a + b + cf) % 256 = 0)
      ∧ (adc_compute a b cf).n = false
      ∧ ((adc_compute a b cf).h = true ↔ a % 16 + b % 16 + cf > 0xF)
      ∧ ((adc_compute a b cf).c = true ↔ a + b + cf > 0xFF))
    ∧ ((sub_compute a b).res = (a + 256 - b) % 256
      ∧ ((sub_compute a b).z = true ↔ a = b)
      ∧ (sub_compute a b).n = true
      ∧ ((sub_compute a b).h = true ↔ a % 16 < b % 16)
      ∧ ((sub_compute a b).c = true ↔ a < b))
    ∧ ((sbc_compute a b cf).res = (a + 512 - b - cf) % 256
      ∧ ((sbc_compute a b cf).z = true ↔ (a + 512 - b - cf) % 256 = 0)
      ∧ (sbc_compute a b cf).n = true
      ∧ ((sbc_compute a b cf).h = true ↔ a % 16 < b % 16 + cf)
      ∧ ((sbc_compute a b cf).c = true ↔ a < b + cf))
    ∧ ((and_compute a b).res = a &&& b
      ∧ ((and_compute a b).z = true ↔ a &&& b = 0)
      ∧ (and_compute a b).n = false
      ∧ (and_compute a b).h = true
      ∧ (and_compute a b).c = false)
    ∧ ((or_compute a b).res = a ||| b
      ∧ ((or_compute a b).z = true ↔ a ||| b = 0)
      ∧ (or_compute a b).n = false
      ∧ (or_compute a b).h = false
      ∧ (or_compute a b).c = false)
    ∧ ((xor_compute a b).res = a ^^^ b
      ∧ ((xor_compute a b).z = true ↔ a ^^^ b = 0)
      ∧ (xor_compute a b).n = false
      ∧ (xor_compute a b).h = false
      ∧ (xor_compute a b).c = false)
    ∧ ((∀ s r1, cp_r s = .ok r1 → r1.1.reg.a = s.reg.a)
      ∧ (∀ s r1, cp_n s = .ok r1 → r1.1.reg.a = s.reg.a)
      ∧ (∀ s r1, cp_hl s = .ok r1 → r1.1.reg.a = s.reg.a)) := by
  refine ⟨⟨?_, ?_, rfl, ?_, ?_⟩, ⟨?_, ?_, rfl, ?_, ?_⟩, ⟨?_, ?_, rfl, ?_, ?_⟩,
          ⟨?_, ?_, rfl, ?_, ?_⟩, ⟨rfl, ?_, rfl, rfl, rfl⟩, ⟨rfl, ?_, rfl, rfl, rfl⟩,
          ⟨rfl, ?_, rfl, rfl, rfl⟩,
          cp_r_preserves_a, cp_n_preserves_a, cp_hl_preserves_a⟩
  · simp [add_compute, nat_and_255]
  · simp [add_compute, nat_and_255]
  · simp [add_compute, nat_and_15]
  · simp [add_compute]
  · simp [adc_compute, nat_and_255]
  · simp [adc_compute, nat_and_255]
  · have : cf &&& 15 = cf := by
      rw [nat_and_15]; omega
    simp [adc_compute, nat_and_15, this]
  · simp [adc_compute]
  · simp [sub_compute, wrapping_sub8]; omega
  · simp [sub_compute, wrapping_sub8]; omega
  · simp [sub_compute, nat_and_15]
  · simp [sub_compute]
  · simp [sbc_compute, wrapping_sub8]; omega
  · simp [sbc_compute, wrapping_sub8]; omega
  · simp [sbc_compute, nat_and_15]
  · simp [sbc_compute]
  · simp [and_compute]
  · simp [or_compute]
  · simp [xor_compute]

/-- Witness for C4 at the S1 operands a = 0x3A, b = 0xC6 with carry 1:
the sum wraps to zero and both carries fire. -/
theorem c4_alu_flag_table_witness :
    (add_compute 0x3A 0xC6).res = (0x3A + 0xC6) % 256 ∧
    ((sbc_compute 0x3A 0xC6 1).c = true ↔ 0x3A < 0xC6 + 1) := by
  have h := c4_alu_flag_table 0x3A 0xC6 1 (by decide) (by decide) (by decide)
  exact ⟨h.1.1, h.2.2.2.1.2.2.2.2⟩

theorem and7_lt (x : Nat) : x &&& 7 < 8 :=
  Nat.lt_succ_of_le Nat.and_le_right

theorem get_r8_from_lt (s : Cpu) : get_r8_from s < 8 := and7_lt _

theorem cb_reg_field_lt (s : Cpu) : cb_reg_field s < 8 := and7_lt _

theorem get_r8_to_lt (s : Cpu) : get_r8_to s < 8 := by
  unfold get_r8_to
  rw [Nat.shiftRight_eq_div_pow]
  have h := Nat.and_le_right (n := s.interconnect.read s.reg.pc) (m := 0b00111000)
  omega

theorem get_r16_lt (s : Cpu) : get_r16 s < 4 := by
  unfold get_r16
  rw [Nat.shiftRight_eq_div_pow]
  have h := Nat.and_le_right (n := s.interconnect.read s.reg.pc) (m := 0b00110000)
  omega

theorem pair_field_lt (s : Cpu) : (get_r8_to s &&& 0b110) >>> 1 < 4 := by
  rw [Nat.shiftRight_eq_div_pow]
  have h := Nat.and_le_right (n := get_r8_to s) (m := 0b110)
  omega

theorem read_from_r8_ne_none (id : Nat) (h8 : id < 8) (h6 : id ≠ 6)
    (r : Registers) : read_from_r8 id r ≠ none := by
  unfold read_from_r8
  interval_cases id <;> simp_all [A_ID, B_ID, C_ID, D_ID, E_ID, H_ID, L_ID]

theorem write_to_r8_ne_none (id content : Nat) (h8 : id < 8) (h6 : id ≠ 6)
    (r : Registers) : write_to_r8 id content r ≠ none := by
  unfold write_to_r8
  interval_cases id <;> simp_all [A_ID, B_ID, C_ID, D_ID, E_ID, H_ID, L_ID]

theorem read_from_r8_some_valid (id : Nat) (r : Registers) (v : Nat)
    (h : read_from_r8 id r = some v) : id < 8 ∧ id ≠ 6 := by
  unfold read_from_r8 at h
  split_ifs at h with h1 h2 h3 h4 h5 h6 h7 <;>
    first
      | (subst h1; decide)
      | (subst h2; decide)
      | (subst h3; decide)
      | (subst h4; decide)
      | (subst h5; decide)
      | (subst h6; decide)
      | (subst h7; decide)
      | exact absurd h (by simp)

theorem read_from_r16_ne_none (id : Nat) (h4 : id < 4) (r : Registers) :
    read_from_r16 id r ≠ none := by
  unfold read_from_r16
  interval_cases id <;> simp_all [BC_ID, DE_ID, HL_ID, SP_ID]

theorem write_to_r16_ne_none (id content : Nat) (h4 : id < 4) (r : Registers) :
    write_to_r16 id content r ≠ none := by
  unfold write_to_r16
  interval_cases id <;> simp_all [BC_ID, DE_ID, HL_ID, SP_ID]

theorem pp_read_r16_ne_none (id : Nat) (h4 : id < 4) (r : Registers) :
    pp_read_r16 id r ≠ none := by
  unfold pp_read_r16
  interval_cases id <;> simp_all [BC_ID, DE_ID, HL_ID, AF_ID]

theorem pp_write_r16_ne_none (id content : Nat) (h4 : id < 4) (r : Registers) :
    pp_write_r16 id content r ≠ none := by
  unfold pp_write_r16
  interval_cases id <;> simp_all [BC_ID, DE_ID, HL_ID, AF_ID]

theorem check_cc_ne_none (s : Cpu) : check_cc s ≠ none := by
  have hb : (s.interconnect.read s.reg.pc &&& 0b00011000) >>> 3 < 4 := by
    rw [Nat.shiftRight_eq_div_pow]
    have h := Nat.and_le_right (n := s.interconnect.read s.reg.pc) (m := 0b00011000)
    omega
  simp only [check_cc]
  repeat' split
  all_goals
    first
      | (exfalso; omega)
      | simp

theorem rotate_r8_no_fault (id : Nat) (l c : Bool) (s : Cpu) :
    rotate_r8 id l c s ≠ .error .invalidRegister := by
  simp only [rotate_r8]
  split
  · simp
  · next v heq =>
      have hv := read_from_r8_some_valid id s.reg v heq
      repeat' split
      all_goals
        first
          | (rename_i hw; exact absurd hw (write_to_r8_ne_none id _ hv.1 hv.2 s.reg))
          | simp

theorem or_shl8_and7 (hi lo : Nat) : ((hi <<< 8) ||| lo) &&& 7 = lo &&& 7 := by
  apply Nat.eq_of_testBit_eq
  intro i
  have h7 : (7 : Nat) = 2 ^ 3 - 1 := rfl
  by_cases h : i < 3
  · have h8 : ¬ (8 ≤ i) := by omega
    simp [Nat.testBit_shiftLeft, h8]
  · have hz : Nat.testBit 7 i = false := by
      rw [h7, Nat.testBit_two_pow_sub_one]
      simp [h]
    simp [hz]

theorem write_to_r8_A (content : Nat) (r : Registers) :
    write_to_r8 A_ID content r = some { r with a := content % 256 } := rfl

theorem read_from_r16_HL (r : Registers) :
    read_from_r16 HL_ID r = some (r.hl % 65536) := rfl

theorem read_from_r16_SP (r : Registers) :
    read_from_r16 SP_ID r = some (r.sp % 65536) := rfl

theorem write_to_r16_HL (content : Nat) (r : Registers) :
    write_to_r16 HL_ID content r =
      some { r with hl := content % 65536, h := (content % 65536) >>> 8,
                    l := content &&& 0x00FF } := rfl

theorem write_to_r16_SP (content : Nat) (r : Registers) :
    write_to_r16 SP_ID content r = some { r with sp := content % 65536 } := rfl

theorem nop_nf (s : Cpu) : nop s ≠ .error .invalidRegister := by simp [nop]

theorem stop_nf (s : Cpu) : stop s ≠ .error .invalidRegister := by simp [stop]

theorem di_nf (s : Cpu) : di s ≠ .error .invalidRegister := by simp [di]

theorem ei_nf (s : Cpu) : ei s ≠ .error .invalidRegister := by simp [ei]

theorem ccf_nf (s : Cpu) : ccf s ≠ .error .invalidRegister := by simp [ccf]

theorem scf_nf (s : Cpu) : scf s ≠ .error .invalidRegister := by simp [scf]

theorem jp_nn_nf (s : Cpu) : jp_nn s ≠ .error .invalidRegister := by simp [jp_nn]

theorem jp_hl_nf (s : Cpu) : jp_hl s ≠ .error .invalidRegister := by simp [jp_hl]

theorem jr_e_nf (s : Cpu) : jr_e s ≠ .error .invalidRegister := by simp [jr_e]

theorem call_nn_nf (s : Cpu) : call_nn s ≠ .error .invalidRegister := by simp [call_nn]

theorem ret_nf (s : Cpu) : ret s ≠ .error .invalidRegister := by simp [ret]

theorem reti_nf (s : Cpu) : reti s ≠ .error .invalidRegister := by simp [reti]

theorem ld_addr_hl_r_nf (s : Cpu) : ld_addr_hl_r s ≠ .error .invalidRegister := by
  simp [ld_addr_hl_r]

theorem ld_addr_hl_n_nf (s : Cpu) : ld_addr_hl_n s ≠ .error .invalidRegister := by
  simp [ld_addr_hl_n]

theorem ldh_addr_offset_c_a_nf (s : Cpu) :
    ldh_addr_offset_c_a s ≠ .error .invalidRegister := by
  simp [ldh_addr_offset_c_a]

theorem ldh_addr_offset_n_a_nf (s : Cpu) :
    ldh_addr_offset_n_a s ≠ .error .invalidRegister := by
  simp [ldh_addr_offset_n_a]

theorem ld_addr_nn_a_nf (s : Cpu) : ld_addr_nn_a s ≠ .error .invalidRegister := by
  simp [ld_addr_nn_a]

theorem ld_addr_bc_a_nf (s : Cpu) : ld_addr_bc_a s ≠ .error .invalidRegister := by
  simp [ld_addr_bc_a]

theorem ld_addr_de_a_nf (s : Cpu) : ld_addr_de_a s ≠ .error .invalidRegister := by
  simp [ld_addr_de_a]

theorem ld_addr_nn_sp_nf (s : Cpu) : ld_addr_nn_sp s ≠ .error .invalidRegister := by
  simp [ld_addr_nn_sp]

theorem ld_sp_hl_nf (s : Cpu) : ld_sp_hl s ≠ .error .invalidRegister := by
  simp [ld_sp_hl]

theorem inc_hl_nf (s : Cpu) : inc_hl s ≠ .error .invalidRegister := by simp [inc_hl]

theorem dec_hl_nf (s : Cpu) : dec_hl s ≠ .error .invalidRegister := by simp [dec_hl]

theorem bit_b_hl_nf (s : Cpu) : bit_b_hl s ≠ .error .invalidRegister := by
  simp [bit_b_hl]

theorem set_b_hl_nf (s : Cpu) : set_b_hl s ≠ .error .invalidRegister := by
  simp [set_b_hl]

theorem res_b_hl_nf (s : Cpu) : res_b_hl s ≠ .error .invalidRegister := by
  simp [res_b_hl]

theorem add_an_nf (s : Cpu) : add_an s ≠ .error .invalidRegister := by
  simp [add_an, read_from_r8_A]

theorem adc_an_nf (s : Cpu) : adc_an s ≠ .error .invalidRegister := by
  simp [adc_an, read_from_r8_A]

theorem sub_n_nf (s : Cpu) : sub_n s ≠ .error .invalidRegister := by
  simp [sub_n, read_from_r8_A]

theorem sbc_an_nf (s : Cpu) : sbc_an s ≠ .error .invalidRegister := by
  simp [sbc_an, read_from_r8_A]

theorem and_n_nf (s : Cpu) : and_n s ≠ .error .invalidRegister := by
  simp [and_n, read_from_r8_A]

theorem or_n_nf (s : Cpu) : or_n s ≠ .error .invalidRegister := by
  simp [or_n, read_from_r8_A]

theorem xor_n_nf (s : Cpu) : xor_n s ≠ .error .invalidRegister := by
  simp [xor_n, read_from_r8_A]

theorem cp_n_nf (s : Cpu) : cp_n s ≠ .error .invalidRegister := by
  simp [cp_n, read_from_r8_A]

theorem add_ahl_nf (s : Cpu) : add_ahl s ≠ .error .invalidRegister := by
  simp [add_ahl, read_from_r8_A]

theorem adc_ahl_nf (s : Cpu) : adc_ahl s ≠ .error .invalidRegister := by
  simp [adc_ahl, read_from_r8_A]

theorem sub_hl_nf (s : Cpu) : sub_hl s ≠ .error .invalidRegister := by
  simp [sub_hl, read_from_r8_A]

theorem sbc_ahl_nf (s : Cpu) : sbc_ahl s ≠ .error .invalidRegister := by
  simp [sbc_ahl, read_from_r8_A]

theorem and_hl_nf (s : Cpu) : and_hl s ≠ .error .invalidRegister := by
  simp [and_hl, read_from_r8_A]

theorem or_hl_nf (s : Cpu) : or_hl s ≠ .error .invalidRegister := by
  simp [or_hl, read_from_r8_A]

theorem xor_hl_nf (s : Cpu) : xor_hl s ≠ .error .invalidRegister := by
  simp [xor_hl, read_from_r8_A]

theorem cp_hl_nf (s : Cpu) : cp_hl s ≠ .error .invalidRegister := by
  simp [cp_hl, read_from_r8_A]

theorem daa_nf (s : Cpu) : daa s ≠ .error .invalidRegister := by
  simp [daa, read_from_r8_A, write_to_r8_A]

theorem cpl_nf (s : Cpu) : cpl s ≠ .error .invalidRegister := by
  simp [cpl, read_from_r8_A, write_to_r8_A]

theorem ld_a_addr_bc_nf (s : Cpu) : ld_a_addr_bc s ≠ .error .invalidRegister := by
  simp [ld_a_addr_bc, load_mem_to_r8, write_to_r8_A]

theorem ld_a_addr_de_nf (s : Cpu) : ld_a_addr_de s ≠ .error .invalidRegister := by
  simp [ld_a_addr_de, load_mem_to_r8, write_to_r8_A]

theorem ldh_a_addr_offset_c_nf (s : Cpu) :
    ldh_a_addr_offset_c s ≠ .error .invalidRegister := by
  simp [ldh_a_addr_offset_c, load_mem_to_r8, write_to_r8_A]

theorem ldh_a_addr_offset_n_nf (s : Cpu) :
    ldh_a_addr_offset_n s ≠ .error .invalidRegister := by
  simp [ldh_a_addr_offset_n, load_mem_to_r8, write_to_r8_A]

theorem ld_a_addr_nn_nf (s : Cpu) : ld_a_addr_nn s ≠ .error .invalidRegister := by
  simp [ld_a_addr_nn, load_mem_to_r8, write_to_r8_A]

theorem ld_a_addr_hl_inc_nf (s : Cpu) :
    ld_a_addr_hl_inc s ≠ .error .invalidRegister := by
  simp [ld_a_addr_hl_inc, load_mem_to_r8, write_to_r8_A, write_to_r16_HL]

theorem ld_a_addr_hl_dec_nf (s : Cpu) :
    ld_a_addr_hl_dec s ≠ .error .invalidRegister := by
  simp [ld_a_addr_hl_dec, load_mem_to_r8, write_to_r8_A, write_to_r16_HL]

theorem ld_addr_hl_a_inc_nf (s : Cpu) :
    ld_addr_hl_a_inc s ≠ .error .invalidRegister := by
  simp [ld_addr_hl_a_inc, write_to_r16_HL]

theorem ld_addr_hl_a_dec_nf (s : Cpu) :
    ld_addr_hl_a_dec s ≠ .error .invalidRegister := by
  simp [ld_addr_hl_a_dec, write_to_r16_HL]

theorem add_spe_nf (s : Cpu) : add_spe s ≠ .error .invalidRegister := by
  simp [add_spe, read_from_r16_SP, write_to_r16_SP]

theorem ld_hl_sp_e_nf (s : Cpu) : ld_hl_sp_e s ≠ .error .invalidRegister := by
  simp [ld_hl_sp_e, write_to_r16_HL]

theorem ld_rr_nn_nf (s : Cpu) : ld_rr_nn s ≠ .error .invalidRegister := by
  simp only [ld_rr_nn]
  repeat' split
  all_goals
    first
      | (rename_i hw; exact absurd hw (write_to_r16_ne_none _ _ (get_r16_lt s) s.reg))
      | simp

theorem push_rr_nf (s : Cpu) : push_rr s ≠ .error .invalidRegister := by
  simp only [push_rr]
  repeat' split
  all_goals
    first
      | (rename_i hw; exact absurd hw (pp_read_r16_ne_none _ (get_r16_lt s) s.reg))
      | simp

theorem pop_rr_nf (s : Cpu) : pop_rr s ≠ .error .invalidRegister := by
  simp only [pop_rr]
  repeat' split
  all_goals
    first
      | (rename_i hw; exact absurd hw (pp_write_r16_ne_none _ _ (get_r16_lt _) _))
      | simp

theorem add_hlss_nf (s : Cpu) : add_hlss s ≠ .error .invalidRegister := by
  simp only [add_hlss, read_from_r16_HL, write_to_r16_HL]
  repeat' split
  all_goals
    first
      | (rename_i hw; exact absurd hw (read_from_r16_ne_none _ (pair_field_lt s) s.reg))
      | simp

theorem inc_ss_nf (s : Cpu) : inc_ss s ≠ .error .invalidRegister := by
  simp only [inc_ss]
  repeat' split
  all_goals
    first
      | (rename_i hw; exact absurd hw (read_from_r16_ne_none _ (pair_field_lt s) s.reg))
      | (rename_i hw; exact absurd hw (write_to_r16_ne_none _ _ (pair_field_lt s) s.reg))
      | simp

theorem dec_ss_nf (s : Cpu) : dec_ss s ≠ .error .invalidRegister := by
  simp only [dec_ss]
  repeat' split
  all_goals
    first
      | (rename_i hw; exact absurd hw (read_from_r16_ne_none _ (pair_field_lt s) s.reg))
      | (rename_i hw; exact absurd hw (write_to_r16_ne_none _ _ (pair_field_lt s) s.reg))
      | simp

theorem jp_cc_nn_nf (s : Cpu) : jp_cc_nn s ≠ .error .invalidRegister := by
  simp only [jp_cc_nn]
  repeat' split
  all_goals
    first
      | (rename_i hw; exact absurd hw (check_cc_ne_none s))
      | simp

theorem jr_cc_e_nf (s : Cpu) : jr_cc_e s ≠ .error .invalidRegister := by
  simp only [jr_cc_e]
  repeat' split
  all_goals
    first
      | (rename_i hw; exact absurd hw (check_cc_ne_none s))
      | simp

theorem call_cc_nn_nf (s : Cpu) : call_cc_nn s ≠ .error .invalidRegister := by
  simp only [call_cc_nn]
  repeat' split
  all_goals
    first
      | (rename_i hw; exact absurd hw (check_cc_ne_none s))
      | simp

theorem ret_cc_nf (s : Cpu) : ret_cc s ≠ .error .invalidRegister := by
  simp only [ret_cc]
  repeat' split
  all_goals
    first
      | (rename_i hw; exact absurd hw (check_cc_ne_none s))
      | simp

theorem rst_n_nf (s : Cpu) : rst_n s ≠ .error .invalidRegister := by
  simp only [rst_n]
  repeat' split
  all_goals
    first
      | simp
      | (exfalso
         have hx := get_r8_to_lt (push_u16 ((s.reg.pc + 1) % 65536) s)
         omega)

theorem rlca_nf (s : Cpu) : rlca s ≠ .error .invalidRegister := by
  unfold rlca
  split
  · simp
  · next e heq =>
      intro h2
      cases h2
      exact rotate_r8_no_fault A_ID true true s heq

theorem rla_nf (s : Cpu) : rla s ≠ .error .invalidRegister := by
  unfold rla
  split
  · simp
  · next e heq =>
      intro h2
      cases h2
      exact rotate_r8_no_fault A_ID true false s heq

theorem rrca_nf (s : Cpu) : rrca s ≠ .error .invalidRegister := by
  unfold rrca
  split
  · simp
  · next e heq =>
      intro h2
      cases h2
      exact rotate_r8_no_fault A_ID false true s heq

theorem rra_nf (s : Cpu) : rra s ≠ .error .invalidRegister := by
  unfold rra
  split
  · simp
  · next e heq =>
      intro h2
      cases h2
      exact rotate_r8_no_fault A_ID false false s heq

theorem rlc_nf (s : Cpu) : rlc s ≠ .error .invalidRegister := by
  simp only [rlc]
  split
  · simp
  · split
    · simp
    · next e heq =>
        intro h2
        cases h2
        exact rotate_r8_no_fault _ true true s heq

theorem rl_nf (s : Cpu) : rl s ≠ .error .invalidRegister := by
  simp only [rl]
  split
  · simp
  · split
    · simp
    · next e heq =>
        intro h2
        cases h2
        exact rotate_r8_no_fault _ true false s heq

theorem rrc_nf (s : Cpu) : rrc s ≠ .error .invalidRegister := by
  simp only [rrc]
  split
  · simp
  · split
    · simp
    · next e heq =>
        intro h2
        cases h2
        exact rotate_r8_no_fault _ false true s heq

theorem rr_nf (s : Cpu) : rr s ≠ .error .invalidRegister := by
  simp only [rr]
  split
  · simp
  · split
    · simp
    · next e heq =>
        intro h2
        cases h2
        exact rotate_r8_no_fault _ false false s heq

theorem sla_nf (s : Cpu) : sla s ≠ .error .invalidRegister := by
  simp only [sla]
  split
  · simp
  · next hne =>
      repeat' split
      all_goals
        first
          | (rename_i hw;
             exact absurd hw (read_from_r8_ne_none _ (cb_reg_field_lt s) hne s.reg))
          | (rename_i hw;
             exact absurd hw (write_to_r8_ne_none _ _ (cb_reg_field_lt s) hne s.reg))
          | simp

theorem sra_nf (s : Cpu) : sra s ≠ .error .invalidRegister := by
  simp only [sra]
  split
  · simp
  · next hne =>
      repeat' split
      all_goals
        first
          | (rename_i hw;
             exact absurd hw (read_from_r8_ne_none _ (cb_reg_field_lt s) hne s.reg))
          | (rename_i hw;
             exact absurd hw (write_to_r8_ne_none _ _ (cb_reg_field_lt s) hne s.reg))
          | simp

theorem srl_nf (s : Cpu) : srl s ≠ .error .invalidRegister := by
  simp only [srl]
  split
  · simp
  · next hne =>
      repeat' split
      all_goals
        first
          | (rename_i hw;
             exact absurd hw (read_from_r8_ne_none _ (cb_reg_field_lt s) hne s.reg))
          | (rename_i hw;
             exact absurd hw (write_to_r8_ne_none _ _ (cb_reg_field_lt s) hne s.reg))
          | simp

theorem swap_nf (s : Cpu) : swap s ≠ .error .invalidRegister := by
  simp only [swap]
  split
  · simp
  · next hne =>
      repeat' split
      all_goals
        first
          | (rename_i hw;
             exact absurd hw (read_from_r8_ne_none _ (cb_reg_field_lt s) hne s.reg))
          | (rename_i hw;
             exact absurd hw (write_to_r8_ne_none _ _ (cb_reg_field_lt s) hne s.reg))
          | simp

theorem ld_rx_ry_nf (s : Cpu) (h6 : get_r8_to s ≠ 6) :
    ld_rx_ry s ≠ .error .invalidRegister := by
  simp only [ld_rx_ry]
  repeat' split
  all_goals
    first
      | (rename_i hw; exact absurd hw (write_to_r8_ne_none _ _ (get_r8_to_lt s) h6 s.reg))
      | simp

theorem ld_r_n_nf (s : Cpu) (h6 : get_r8_to s ≠ 6) :
    ld_r_n s ≠ .error .invalidRegister := by
  simp only [ld_r_n]
  repeat' split
  all_goals
    first
      | (rename_i hw; exact absurd hw (write_to_r8_ne_none _ _ (get_r8_to_lt s) h6 s.reg))
      | simp

theorem ld_r_addr_hl_nf (s : Cpu) (h6 : get_r8_to s ≠ 6) :
    ld_r_addr_hl s ≠ .error .invalidRegister := by
  simp only [ld_r_addr_hl, load_mem_to_r8]
  repeat' split
  all_goals
    first
      | (rename_i hw; exact absurd hw (write_to_r8_ne_none _ _ (get_r8_to_lt s) h6 s.reg))
      | simp
  rename_i e heq
  split at heq
  · exact absurd heq (by simp)
  · rename_i hw
    exact absurd hw (write_to_r8_ne_none _ _ (get_r8_to_lt s) h6 s.reg)

theorem inc_r_nf (s : Cpu) (h6 : get_r8_to s ≠ 6) :
    inc_r s ≠ .error .invalidRegister := by
  simp only [inc_r]
  repeat' split
  all_goals
    first
      | (rename_i hw; exact absurd hw (read_from_r8_ne_none _ (get_r8_to_lt s) h6 s.reg))
      | (rename_i hw; exact absurd hw (write_to_r8_ne_none _ _ (get_r8_to_lt s) h6 s.reg))
      | simp

theorem dec_r_nf (s : Cpu) (h6 : get_r8_to s ≠ 6) :
    dec_r s ≠ .error .invalidRegister := by
  simp only [dec_r]
  repeat' split
  all_goals
    first
      | (rename_i hw; exact absurd hw (read_from_r8_ne_none _ (get_r8_to_lt s) h6 s.reg))
      | (rename_i hw; exact absurd hw (write_to_r8_ne_none _ _ (get_r8_to_lt s) h6 s.reg))
      | simp

theorem add_ar_nf (s : Cpu) (h6 : get_r8_from s ≠ 6) :
    add_ar s ≠ .error .invalidRegister := by
  simp only [add_ar, read_from_r8_A]
  repeat' split
  all_goals
    first
      | (rename_i hw; exact absurd hw (read_from_r8_ne_none _ (get_r8_from_lt s) h6 s.reg))
      | simp

theorem adc_ar_nf (s : Cpu) (h6 : get_r8_from s ≠ 6) :
    adc_ar s ≠ .error .invalidRegister := by
  simp only [adc_ar, read_from_r8_A]
  repeat' split
  all_goals
    first
      | (rename_i hw; exact absurd hw (read_from_r8_ne_none _ (get_r8_from_lt s) h6 s.reg))
      | simp

theorem sub_r_nf (s : Cpu) (h6 : get_r8_from s ≠ 6) :
    sub_r s ≠ .error .invalidRegister := by
  simp only [sub_r, read_from_r8_A]
  repeat' split
  all_goals
    first
      | (rename_i hw; exact absurd hw (read_from_r8_ne_none _ (get_r8_from_lt s) h6 s.reg))
      | simp

theorem sbc_ar_nf (s : Cpu) (h6 : get_r8_from s ≠ 6) :
    sbc_ar s ≠ .error .invalidRegister := by
  simp only [sbc_ar, read_from_r8_A]
  repeat' split
  all_goals
    first
      | (rename_i hw; exact absurd hw (read_from_r8_ne_none _ (get_r8_from_lt s) h6 s.reg))
      | simp

theorem and_r_nf (s : Cpu) (h6 : get_r8_from s ≠ 6) :
    and_r s ≠ .error .invalidRegister := by
  simp only [and_r, read_from_r8_A]
  repeat' split
  all_goals
    first
      | (rename_i hw; exact absurd hw (read_from_r8_ne_none _ (get_r8_from_lt s) h6 s.reg))
      | simp

theorem or_r_nf (s : Cpu) (h6 : get_r8_from s ≠ 6) :
    or_r s ≠ .error .invalidRegister := by
  simp only [or_r, read_from_r8_A]
  repeat' split
  all_goals
    first
      | (rename_i hw; exact absurd hw (read_from_r8_ne_none _ (get_r8_from_lt s) h6 s.reg))
      | simp

theorem xor_r_nf (s : Cpu) (h6 : get_r8_from s ≠ 6) :
    xor_r s ≠ .error .invalidRegister := by
  simp only [xor_r, read_from_r8_A]
  repeat' split
  all_goals
    first
      | (rename_i hw; exact absurd hw (read_from_r8_ne_none _ (get_r8_from_lt s) h6 s.reg))
      | simp

theorem cp_r_nf (s : Cpu) (h6 : get_r8_from s ≠ 6) :
    cp_r s ≠ .error .invalidRegister := by
  simp only [cp_r, read_from_r8_A]
  repeat' split
  all_goals
    first
      | (rename_i hw; exact absurd hw (read_from_r8_ne_none _ (get_r8_from_lt s) h6 s.reg))
      | simp

theorem bit_b_r_nf (s : Cpu) (h6 : get_n s &&& 0b00000111 ≠ 6) :
    bit_b_r s ≠ .error .invalidRegister := by
  simp only [bit_b_r]
  repeat' split
  all_goals
    first
      | (rename_i hw; exact absurd hw (read_from_r8_ne_none _ (and7_lt _) h6 s.reg))
      | simp

theorem set_b_r_nf (s : Cpu) (h6 : get_nn s &&& 0b00000111 ≠ 6) :
    set_b_r s ≠ .error .invalidRegister := by
  simp only [set_b_r]
  repeat' split
  all_goals
    first
      | (rename_i hw; exact absurd hw (read_from_r8_ne_none _ (and7_lt _) h6 s.reg))
      | (rename_i hw; exact absurd hw (write_to_r8_ne_none _ _ (and7_lt _) h6 s.reg))
      | simp

theorem res_b_r_nf (s : Cpu) (h6 : get_nn s &&& 0b00000111 ≠ 6) :
    res_b_r s ≠ .error .invalidRegister := by
  simp only [res_b_r]
  repeat' split
  all_goals
    first
      | (rename_i hw; exact absurd hw (read_from_r8_ne_none _ (and7_lt _) h6 s.reg))
      | (rename_i hw; exact absurd hw (write_to_r8_ne_none _ _ (and7_lt _) h6 s.reg))
      | simp


theorem decode_fields_ok : ∀ op, op < 256 → c10DecodeOk op := by decide

theorem decodeCB_fields_ok : ∀ sfx, sfx < 256 → c10DecodeCBOk sfx := by decide

theorem read_byte_lt (ic : Interconnect) (addr : Nat) : ic.read addr < 256 := by
  simp only [Interconnect.read]
  exact Nat.mod_lt _ (by norm_num)

theorem execute_bc_no_fault (s : Cpu) :
    execute_bc s s.reg.pc ≠ .error .invalidRegister := by
  have hsfx := read_byte_lt s.interconnect (s.reg.pc + 1)
  simp only [execute_bc]
  split
  · exact rlc_nf s
  · exact rl_nf s
  · exact rrc_nf s
  · exact rr_nf s
  · exact sla_nf s
  · exact sra_nf s
  · exact srl_nf s
  · exact swap_nf s
  · exact bit_b_hl_nf s
  · next heq => exact bit_b_r_nf s ((decodeCB_fields_ok _ hsfx).1 heq)
  · exact res_b_hl_nf s
  · next heq =>
      have h6 := (decodeCB_fields_ok _ hsfx).2.1 heq
      refine res_b_r_nf s ?_
      show get_nn s &&& 0b00000111 ≠ 6
      simp only [get_nn]
      rw [or_shl8_and7]
      exact h6
  · exact set_b_hl_nf s
  · next heq =>
      have h6 := (decodeCB_fields_ok _ hsfx).2.2 heq
      refine set_b_r_nf s ?_
      show get_nn s &&& 0b00000111 ≠ 6
      simp only [get_nn]
      rw [or_shl8_and7]
      exact h6
  · simp


theorem runOp_no_invalid (s : Cpu) :
    runOp (decode (s.interconnect.read s.reg.pc)) s ≠ .error .invalidRegister := by
  have hop := read_byte_lt s.interconnect s.reg.pc
  have hfacts := decode_fields_ok _ hop
  cases hdec : decode (s.interconnect.read s.reg.pc) with
  | i_ld_addr_hl_n => exact ld_addr_hl_n_nf s
  | i_ld_a_addr_bc => exact ld_a_addr_bc_nf s
  | i_ld_a_addr_de => exact ld_a_addr_de_nf s
  | i_ld_addr_bc_a => exact ld_addr_bc_a_nf s
  | i_ld_addr_de_a => exact ld_addr_de_a_nf s
  | i_ld_a_addr_hl_dec => exact ld_a_addr_hl_dec_nf s
  | i_ld_addr_hl_a_dec => exact ld_addr_hl_a_dec_nf s
  | i_ld_a_addr_hl_inc => exact ld_a_addr_hl_inc_nf s
  | i_ld_addr_hl_a_inc => exact ld_addr_hl_a_inc_nf s
  | i_ld_addr_nn_sp => exact ld_addr_nn_sp_nf s
  | i_jr_e => exact jr_e_nf s
  | i_ccf => exact ccf_nf s
  | i_scf => exact scf_nf s
  | i_nop => exact nop_nf s
  | i_daa => exact daa_nf s
  | i_cpl => exact cpl_nf s
  | i_inc_hl => exact inc_hl_nf s
  | i_dec_hl => exact dec_hl_nf s
  | i_rlca => exact rlca_nf s
  | i_rla => exact rla_nf s
  | i_rrca => exact rrca_nf s
  | i_rra => exact rra_nf s
  | i_stop => exact stop_nf s
  | i_inc_ss => exact inc_ss_nf s
  | i_dec_ss => exact dec_ss_nf s
  | i_add_hlss => exact add_hlss_nf s
  | i_ld_rr_nn => exact ld_rr_nn_nf s
  | i_jr_cc_e => exact jr_cc_e_nf s
  | i_ld_r_n => exact ld_r_n_nf s (hfacts.2.1 hdec)
  | i_dec_r => exact dec_r_nf s (hfacts.2.2.2.2.1 hdec)
  | i_inc_r => exact inc_r_nf s (hfacts.2.2.2.1 hdec)
  | i_ld_addr_hl_r => exact ld_addr_hl_r_nf s
  | i_ld_r_addr_hl => exact ld_r_addr_hl_nf s (hfacts.2.2.1 hdec)
  | i_ld_rx_ry => exact ld_rx_ry_nf s ((hfacts.1 hdec).1)
  | i_add_ahl => exact add_ahl_nf s
  | i_adc_ahl => exact adc_ahl_nf s
  | i_sub_hl => exact sub_hl_nf s
  | i_sbc_ahl => exact sbc_ahl_nf s
  | i_and_hl => exact and_hl_nf s
  | i_or_hl => exact or_hl_nf s
  | i_xor_hl => exact xor_hl_nf s
  | i_cp_hl => exact cp_hl_nf s
  | i_add_ar => exact add_ar_nf s (hfacts.2.2.2.2.2.1 hdec)
  | i_adc_ar => exact adc_ar_nf s (hfacts.2.2.2.2.2.2.1 hdec)
  | i_sub_r => exact sub_r_nf s (hfacts.2.2.2.2.2.2.2.1 hdec)
  | i_sbc_ar => exact sbc_ar_nf s (hfacts.2.2.2.2.2.2.2.2.1 hdec)
  | i_and_r => exact and_r_nf s (hfacts.2.2.2.2.2.2.2.2.2.1 hdec)
  | i_or_r => exact or_r_nf s (hfacts.2.2.2.2.2.2.2.2.2.2.1 hdec)
  | i_xor_r => exact xor_r_nf s (hfacts.2.2.2.2.2.2.2.2.2.2.2.1 hdec)
  | i_cp_r => exact cp_r_nf s (hfacts.2.2.2.2.2.2.2.2.2.2.2.2 hdec)
  | i_ld_a_addr_nn => exact ld_a_addr_nn_nf s
  | i_ld_addr_nn_a => exact ld_addr_nn_a_nf s
  | i_ldh_a_addr_offset_c => exact ldh_a_addr_offset_c_nf s
  | i_ldh_addr_offset_c_a => exact ldh_addr_offset_c_a_nf s
  | i_ldh_a_addr_offset_n => exact ldh_a_addr_offset_n_nf s
  | i_ldh_addr_offset_n_a => exact ldh_addr_offset_n_a_nf s
  | i_ld_sp_hl => exact ld_sp_hl_nf s
  | i_add_an => exact add_an_nf s
  | i_adc_an => exact adc_an_nf s
  | i_sub_n => exact sub_n_nf s
  | i_sbc_an => exact sbc_an_nf s
  | i_and_n => exact and_n_nf s
  | i_or_n => exact or_n_nf s
  | i_xor_n => exact xor_n_nf s
  | i_cp_n => exact cp_n_nf s
  | i_add_spe => exact add_spe_nf s
  | i_jp_nn => exact jp_nn_nf s
  | i_jp_hl => exact jp_hl_nf s
  | i_call_nn => exact call_nn_nf s
  | i_ret => exact ret_nf s
  | i_reti => exact reti_nf s
  | i_di => exact di_nf s
  | i_ei => exact ei_nf s
  | i_cb => exact execute_bc_no_fault s
  | i_ld_hl_sp_e => exact ld_hl_sp_e_nf s
  | i_push_rr => exact push_rr_nf s
  | i_pop_rr => exact pop_rr_nf s
  | i_jp_cc_nn => exact jp_cc_nn_nf s
  | i_call_cc_nn => exact call_cc_nn_nf s
  | i_ret_cc => exact ret_cc_nf s
  | i_rst_n => exact rst_n_nf s
  | i_undefined => simp [runOp]

theorem execute_opcode_no_invalid (s : Cpu) :
    execute_opcode s ≠ .error .invalidRegister := by
  simp only [execute_opcode]
  split
  · simp
  · next e heq =>
      intro h2
      cases h2
      exact runOp_no_invalid s heq

/-- C10: for every opcode byte, whenever the decoder selects a
register-operand handler (ld_rx_ry, ld_r_n, ld_r_addr_hl, inc_r, dec_r, the
eight ALU register forms), the decoded 3-bit register field is not 0b110;
likewise for the CB suffix and the BIT/RES/SET register forms; and
consequently, for every CPU state, execute_opcode never reaches the
invalid-register panic (the unwrap of read_from_r8 and the panic arm of
write_to_r8 are unreachable from the decoder). -/
theorem c10_decoder_register_safety :
    (∀ op, op < 256 → c10DecodeOk op)
    ∧ (∀ sfx, sfx < 256 → c10DecodeCBOk sfx)
    ∧ (∀ s : Cpu, execute_opcode s ≠ .error .invalidRegister) :=
  ⟨decode_fields_ok, decodeCB_fields_ok, execute_opcode_no_invalid⟩

/-- Witness for C10 at opcode 0x80 (ADD A,B), CB suffix 0x40 (BIT 0,B) and
the power-on state. -/
theorem c10_decoder_register_safety_witness :
    c10DecodeOk 0x80 ∧ c10DecodeCBOk 0x40 ∧
    execute_opcode baseCpu ≠ .error .invalidRegister :=
  ⟨c10_decoder_register_safety.1 0x80 (by decide),
   c10_decoder_register_safety.2.1 0x40 (by decide),
   c10_decoder_register_safety.2.2 baseCpu⟩

end GB
